import Mathlib

/-!
# Weather dashboard: application state store

A shallow embedding of `src/context/WeatherContext.jsx` (the reducer
`weatherReducer`, the initial state, and the asynchronous intents built on
top of it), of the pagination of `src/components/Forecast.jsx`, of the
gateway methods of `src/services/weatherService.js`, of the debounced
suggestions of `src/components/SearchBar.jsx` and of the conditions under
which `src/App.jsx` and the search bar display the error, together with the
properties that the specification states about them.

Conventions of the embedding:

* JavaScript arrays are `List`s, `null` is `none`, strings are `String`s
  (`===` / `!==` on strings is code-unit equality, which on well-formed
  strings is `=` / `≠` on `String`).
* `localStorage` is an explicit `Storage` record with one optional slot per
  key; `JSON.stringify` / `JSON.parse` are taken as inverse to each other on
  the values stored.
* An asynchronous function is modelled by the sequence of effects it
  performs (dispatched actions and gateway requests), given the outcome of
  every promise it awaits.
-/

namespace WeatherApp

/-! ## Data model -/

/-- The record built by `formatCurrentWeather` in `weatherService.js`. -/
structure WeatherSnapshot where
  city : String
  country : String
  state : Option String
  lat : Rat
  lon : Rat
  temperature : Int
  feelsLike : Int
  tempMin : Int
  tempMax : Int
  humidity : Rat
  pressure : Rat
  windSpeed : Rat
  windDeg : Rat
  windGust : Option Rat
  description : String
  icon : String
  iconUrl : String
  timestamp : Int
  sunrise : Int
  sunset : Int
  clouds : Rat
  visibility : Rat
  alerts : List String
  deriving DecidableEq, Repr

/-- One element of the array built by `formatForecastData`. -/
structure ForecastDay where
  date : String
  tempMax : Int
  tempMin : Int
  avgTemp : Int
  feelsLike : Int
  icon : String
  iconUrl : String
  description : String
  avgHumidity : Int
  avgWindSpeed : Int
  avgPressure : Int
  avgClouds : Int
  deriving DecidableEq, Repr

/-- What `weatherService.getCurrentWeather` can resolve with: the snapshot of
the direct path (`formatCurrentWeather(response.data)`), or, on the geocoding
fallback, whatever `getWeatherByCoords` resolves with, an object
`{ current, forecast }`. -/
inductive WeatherValue where
  | snapshot (w : WeatherSnapshot)
  | bundle (current : WeatherSnapshot) (forecast : List ForecastDay)
  deriving DecidableEq, Repr

/-- The object `cityData` that `CurrentWeather.jsx` passes to
`addToFavorites`. -/
structure FavoriteEntry where
  city : String
  country : String
  temp : Int
  unit : String
  icon : String
  timestamp : Nat
  deriving DecidableEq, Repr

/-- The three keys of `localStorage` that the store reads and writes;
`none` is a key that was never set (`getItem` returns `null`). -/
structure Storage where
  searchHistory : Option (List String)
  favorites : Option (List FavoriteEntry)
  theme : Option String
  deriving DecidableEq, Repr

/-- The state object held by `useReducer(weatherReducer, initialState)`. -/
structure State where
  currentWeather : Option WeatherValue
  forecast : List ForecastDay
  loading : Bool
  error : Option String
  searchHistory : List String
  favorites : List FavoriteEntry
  unit : String
  theme : String
  currentPage : Int
  itemsPerPage : Nat
  locationPermission : String
  deriving DecidableEq, Repr

/-- The actions of `weatherReducer`, one constructor per `case` label with
its payload, and `OTHER` for every action type that reaches `default`. -/
inductive Action where
  | FETCH_START
  | FETCH_SUCCESS (current : Option WeatherValue) (forecast : List ForecastDay)
  | FETCH_ERROR (payload : Option String)
  | ADD_TO_HISTORY (payload : String)
  | REMOVE_FROM_HISTORY (payload : String)
  | CLEAR_HISTORY
  | ADD_TO_FAVORITES (payload : FavoriteEntry)
  | REMOVE_FROM_FAVORITES (payload : String)
  | CLEAR_FAVORITES
  | SET_UNIT (payload : String)
  | SET_THEME (payload : String)
  | SET_PAGE (payload : Int)
  | CLEAR_ERROR
  | SET_LOCATION_PERMISSION (payload : String)
  | OTHER (type : String)
  deriving DecidableEq, Repr

/-! ## The reducer -/

/-- The constant `initialState`, as a function of the durable store it is
read from at startup (`JSON.parse(getItem(k)) || []`, `getItem('theme') ||
'light'`; the empty string is falsy). -/
def initialState (store : Storage) : State :=
  { currentWeather := none
    forecast := []
    loading := false
    error := none
    searchHistory := store.searchHistory.getD []
    favorites := store.favorites.getD []
    unit := "metric"
    theme :=
      match store.theme with
      | some t => if t = "" then "light" else t
      | none => "light"
    currentPage := 0
    itemsPerPage := 5
    locationPermission := "prompt" }

/-- The state returned by `weatherReducer(state, action)`. The writes to
`localStorage` that some cases perform before returning are in
`weatherReducerStorage`; the `dark` class that `SET_THEME` sets on the
document element is not part of the state. -/
def weatherReducer (state : State) (action : Action) : State :=
  match action with
  | .FETCH_START => { state with loading := true, error := none }
  | .FETCH_SUCCESS current forecast =>
      { state with
        loading := false
        currentWeather := current
        forecast := forecast
        currentPage := 0
        error := none }
  | .FETCH_ERROR payload => { state with loading := false, error := payload }
  | .ADD_TO_HISTORY payload =>
      let newHistory :=
        (payload :: state.searchHistory.filter (fun city => city != payload)).take 10
      { state with searchHistory := newHistory }
  | .REMOVE_FROM_HISTORY payload =>
      let filteredHistory := state.searchHistory.filter (fun city => city != payload)
      { state with searchHistory := filteredHistory }
  | .CLEAR_HISTORY => { state with searchHistory := [] }
  | .ADD_TO_FAVORITES payload =>
      if state.favorites.any (fun fav => fav.city == payload.city) then
        state
      else
        let newFavorites := state.favorites ++ [payload]
        { state with favorites := newFavorites }
  | .REMOVE_FROM_FAVORITES payload =>
      let filteredFavorites := state.favorites.filter (fun fav => fav.city != payload)
      { state with favorites := filteredFavorites }
  | .CLEAR_FAVORITES => { state with favorites := [] }
  | .SET_UNIT payload => { state with unit := payload }
  | .SET_THEME payload => { state with theme := payload }
  | .SET_PAGE payload => { state with currentPage := payload }
  | .CLEAR_ERROR => { state with error := none }
  | .SET_LOCATION_PERMISSION payload => { state with locationPermission := payload }
  | .OTHER _ => state

/-- The durable store after `weatherReducer(state, action)` has run: the
`localStorage.setItem` calls of each case, applied to `store`. -/
def weatherReducerStorage (store : Storage) (state : State) (action : Action) : Storage :=
  match action with
  | .ADD_TO_HISTORY _ | .REMOVE_FROM_HISTORY _ | .CLEAR_HISTORY =>
      { store with searchHistory := some (weatherReducer state action).searchHistory }
  | .ADD_TO_FAVORITES payload =>
      if state.favorites.any (fun fav => fav.city == payload.city) then
        store
      else
        { store with favorites := some (weatherReducer state action).favorites }
  | .REMOVE_FROM_FAVORITES _ | .CLEAR_FAVORITES =>
      { store with favorites := some (weatherReducer state action).favorites }
  | .SET_THEME payload => { store with theme := some payload }
  | _ => store

/-- The state after a sequence of actions has gone through the reducer, in
order. -/
def runActions (state : State) (actions : List Action) : State :=
  actions.foldl weatherReducer state

/-- The callback `isFavorite(cityName)` of the provider, for the favourites
of the state it closes over. -/
def isFavorite (state : State) (cityName : String) : Bool :=
  state.favorites.any (fun fav => fav.city == cityName)

/-! ## Asynchronous intents -/

/-- The code points that `String.prototype.trim` removes: the ECMAScript
`WhiteSpace` (TAB, VT, FF, ZWNBSP and the space separators) and
`LineTerminator` (LF, CR, LS, PS) productions. -/
def jsWhiteSpace (ch : Char) : Bool :=
  let n := ch.toNat
  n == 0x09 || n == 0x0A || n == 0x0B || n == 0x0C || n == 0x0D || n == 0x20 ||
  n == 0xA0 || n == 0x1680 || (0x2000 ≤ n && n ≤ 0x200A) || n == 0x2028 ||
  n == 0x2029 || n == 0x202F || n == 0x205F || n == 0x3000 || n == 0xFEFF

/-- The characters of `s.trim()`: leading and trailing white space removed. -/
def jsTrim (s : List Char) : List Char :=
  ((s.dropWhile jsWhiteSpace).reverse.dropWhile jsWhiteSpace).reverse

/-- The guard `!city.trim()` of `searchWeather`: the trimmed string is the
empty string, the only falsy string. -/
def isBlank (city : String) : Bool :=
  (jsTrim city.toList).isEmpty

/-- How a promise ends: fulfilled with a value, rejected with an `Error`
carrying `message`, or never settled. -/
inductive Outcome (α : Type) where
  | resolved (value : α)
  | rejected (message : String)
  | pending
  deriving DecidableEq, Repr

/-- Whether the promise was rejected. -/
def Outcome.isRejected {α : Type} : Outcome α → Bool
  | .rejected _ => true
  | _ => false

/-- The outcome of `Promise.all([a, b])`: rejected as soon as one of the two
is rejected, with the reason of the rejection that happens first
(`secondFirst` tells that `b` is rejected before `a` when both are);
otherwise fulfilled with both values once both are fulfilled. -/
def promiseAll {α β : Type} (a : Outcome α) (b : Outcome β) (secondFirst : Bool) :
    Outcome (α × β) :=
  match a, b with
  | .rejected m₁, .rejected m₂ => .rejected (if secondFirst then m₂ else m₁)
  | .rejected m₁, _ => .rejected m₁
  | _, .rejected m₂ => .rejected m₂
  | .resolved x, .resolved y => .resolved (x, y)
  | _, _ => .pending

/-- The calls that the provider makes on `weatherService`. -/
inductive Request where
  | getCurrentWeather (city : String) (units : String)
  | getForecast (city : String) (units : String)
  | getWeatherByCoords (lat : Rat) (lon : Rat) (units : String)
  | searchCities (query : String)
  deriving DecidableEq, Repr

/-- What an intent of the provider does, in order: it dispatches actions to
the reducer and issues gateway requests. -/
inductive Effect where
  | dispatch (action : Action)
  | request (req : Request)
  deriving DecidableEq, Repr

/-- The actions among the effects, in order. -/
def dispatched (effects : List Effect) : List Action :=
  effects.filterMap fun
    | .dispatch a => some a
    | .request _ => none

/-- The gateway requests among the effects, in order. -/
def requests (effects : List Effect) : List Request :=
  effects.filterMap fun
    | .dispatch _ => none
    | .request r => some r

/-- The state once every action among the effects has gone through the
reducer. -/
def stateAfter (state : State) (effects : List Effect) : State :=
  runActions state (dispatched effects)

/-- The callback `searchWeather(city)`. `unit` is the `state.unit` the
callback closes over; `current` and `forecast` are the outcomes of
`weatherService.getCurrentWeather(city, unit)` and
`weatherService.getForecast(city, unit)`, and `forecastFirst` orders their
rejections for `Promise.all`. -/
def searchWeather (unit : String) (city : String)
    (current : Outcome WeatherValue) (forecast : Outcome (List ForecastDay))
    (forecastFirst : Bool) : List Effect :=
  if isBlank city then
    []
  else
    [ .dispatch .FETCH_START,
      .request (.getCurrentWeather city unit),
      .request (.getForecast city unit) ] ++
    match promiseAll current forecast forecastFirst with
    | .resolved (cur, fc) =>
        [ .dispatch (.FETCH_SUCCESS (some cur) fc),
          .dispatch (.ADD_TO_HISTORY city) ]
    | .rejected message => [ .dispatch (.FETCH_ERROR (some message)) ]
    | .pending => []

/-! ## Geolocation -/

/-- The code `error.PERMISSION_DENIED` of a `GeolocationPositionError`. -/
def PERMISSION_DENIED : Nat := 1

/-- The code `error.POSITION_UNAVAILABLE` of a `GeolocationPositionError`. -/
def POSITION_UNAVAILABLE : Nat := 2

/-- The code `error.TIMEOUT` of a `GeolocationPositionError`. -/
def TIMEOUT : Nat := 3

/-- How `navigator.geolocation.getCurrentPosition(success, error, options)`
ends: it calls `success` with a position, calls `error` with an error of the
given code, raises synchronously, or calls neither callback. -/
inductive PositionOutcome where
  | position (latitude : Rat) (longitude : Rat)
  | error (code : Nat)
  | throws
  | pending
  deriving DecidableEq, Repr

/-- The callback `checkGeolocationStatus()`: the actions it dispatches and
the promise it returns. `permission` is the outcome of
`navigator.permissions.query({ name: 'geolocation' })`, resolved with the
`state` of the permission status; a query that raises is a rejected one. The
listener it registers for later `change` events runs after the call. -/
def checkGeolocationStatus (hasGeolocation : Bool) (permission : Outcome String) :
    List Effect × Outcome String :=
  if !hasGeolocation then
    ([.dispatch (.SET_LOCATION_PERMISSION "unsupported")], .resolved "unsupported")
  else
    match permission with
    | .resolved status =>
        ([.dispatch (.SET_LOCATION_PERMISSION status)], .resolved status)
    | .rejected _ =>
        ([.dispatch (.SET_LOCATION_PERMISSION "unknown")], .resolved "unknown")
    | .pending => ([], .pending)

/-- The success callback passed to `getCurrentPosition`: `coords` is the
outcome of `weatherService.getWeatherByCoords(latitude, longitude, unit)`,
an object `{ current, forecast }`; `data.current?.city` is truthy when the
city is a non-empty string. -/
def positionSuccess (unit : String) (latitude longitude : Rat)
    (coords : Outcome (WeatherSnapshot × List ForecastDay)) : List Effect :=
  .request (.getWeatherByCoords latitude longitude unit) ::
    match coords with
    | .resolved (current, forecast) =>
        .dispatch (.FETCH_SUCCESS (some (.snapshot current)) forecast) ::
          (if current.city ≠ "" then [.dispatch (.ADD_TO_HISTORY current.city)] else [])
    | .rejected message => [.dispatch (.FETCH_ERROR (some message))]
    | .pending => []

/-- The error callback passed to `getCurrentPosition`: the `switch` on
`error.code`. -/
def positionError (code : Nat) : List Effect :=
  if code = PERMISSION_DENIED then
    [ .dispatch (.SET_LOCATION_PERMISSION "denied"),
      .dispatch (.FETCH_ERROR none),
      .dispatch (.FETCH_SUCCESS none []) ]
  else if code = POSITION_UNAVAILABLE then
    [ .dispatch (.FETCH_ERROR
        (some "Location information is unavailable. Please search for a city manually.")) ]
  else if code = TIMEOUT then
    [ .dispatch (.FETCH_ERROR
        (some "Location request timed out. Please search for a city manually.")) ]
  else
    [ .dispatch (.FETCH_ERROR
        (some "Unable to retrieve your location. Please search for a city manually.")) ]

/-- The callback `getWeatherByLocation()`. `unit` is the `state.unit` it
closes over, `hasGeolocation` tells whether `navigator.geolocation` is
there, and `permission`, `position`, `coords` are the outcomes of the
permission query, of `getCurrentPosition` and of the coordinate lookup. -/
def getWeatherByLocation (unit : String) (hasGeolocation : Bool)
    (permission : Outcome String) (position : PositionOutcome)
    (coords : Outcome (WeatherSnapshot × List ForecastDay)) : List Effect :=
  if !hasGeolocation then
    [ .dispatch (.FETCH_ERROR
        (some "Geolocation is not supported by your browser. Please search for a city manually.")),
      .dispatch (.SET_LOCATION_PERMISSION "unsupported") ]
  else
    .dispatch .FETCH_START ::
      ((checkGeolocationStatus hasGeolocation permission).1 ++
        match (checkGeolocationStatus hasGeolocation permission).2 with
        | .resolved permissionStatus =>
            if permissionStatus = "denied" then
              [ .dispatch (.SET_LOCATION_PERMISSION "denied"),
                .dispatch (.FETCH_ERROR none),
                .dispatch (.FETCH_SUCCESS none []) ]
            else
              match position with
              | .position latitude longitude =>
                  positionSuccess unit latitude longitude coords
              | .error code => positionError code
              | .throws =>
                  [ .dispatch (.FETCH_ERROR
                      (some "An error occurred while trying to get your location.")) ]
              | .pending => []
        | .rejected _ =>
            [ .dispatch (.FETCH_ERROR
                (some "An error occurred while trying to get your location.")) ]
        | .pending => [])

/-! ## Preferences -/

/-- The property `city` of the value held in `state.currentWeather`: a
snapshot has one, the object `{ current, forecast }` has none
(`undefined`). -/
def WeatherValue.city : WeatherValue → Option String
  | .snapshot w => some w.city
  | .bundle _ _ => none

/-- The callback `changeUnit(unit)`. `state` is the state of the render that
created the callback: it reads `state.currentWeather?.city` from it (truthy
when a non-empty string) and calls the `searchWeather` of that same render,
which closes over `state.unit`. `current`, `forecast`, `forecastFirst` are
the outcomes of the two requests of that search. -/
def changeUnit (state : State) (unit : String)
    (current : Outcome WeatherValue) (forecast : Outcome (List ForecastDay))
    (forecastFirst : Bool) : List Effect :=
  .dispatch (.SET_UNIT unit) ::
    match state.currentWeather.bind WeatherValue.city with
    | some city =>
        if city ≠ "" then searchWeather state.unit city current forecast forecastFirst else []
    | none => []

/-- The callback `changeTheme(theme)`. -/
def changeTheme (theme : String) : List Effect :=
  [.dispatch (.SET_THEME theme)]

/-- One run of the reducer on the durable store and the state together. -/
def storeStep (p : Storage × State) (action : Action) : Storage × State :=
  (weatherReducerStorage p.1 p.2 action, weatherReducer p.2 action)

/-- The durable store and the state after a sequence of actions. -/
def runStore (store : Storage) (state : State) (actions : List Action) : Storage × State :=
  actions.foldl storeStep (store, state)

/-- The keys of the durable store. -/
inductive StoreKey where
  | searchHistory
  | favorites
  | theme
  deriving DecidableEq, Repr

/-- The key of the durable store an action is about: the history actions,
the favourites actions and `SET_THEME`; no key for the other actions. -/
def Action.storeKey : Action → Option StoreKey
  | .ADD_TO_HISTORY _ | .REMOVE_FROM_HISTORY _ | .CLEAR_HISTORY => some .searchHistory
  | .ADD_TO_FAVORITES _ | .REMOVE_FROM_FAVORITES _ | .CLEAR_FAVORITES => some .favorites
  | .SET_THEME _ => some .theme
  | _ => none

/-- The durable store holds the state's history, favourites and theme. -/
def StoreConsistent (store : Storage) (state : State) : Prop :=
  store.searchHistory = some state.searchHistory ∧
  store.favorites = some state.favorites ∧
  store.theme = some state.theme

instance (store : Storage) (state : State) : Decidable (StoreConsistent store state) := by
  unfold StoreConsistent; infer_instance

/-! ## Forecast pagination (`components/Forecast.jsx`) -/

/-- The array `l.slice(start, stop)` of `Array.prototype.slice`: a negative
index counts from the end, and both indices are clamped to the array. -/
def jsSlice {α : Type} (l : List α) (start stop : Int) : List α :=
  let len : Int := l.length
  let k : Int := if start < 0 then max (len + start) 0 else min start len
  let final : Int := if stop < 0 then max (len + stop) 0 else min stop len
  (l.drop k.toNat).take (final - k).toNat

/-- The constant `totalPages = Math.ceil(data.length / itemsPerPage)` of the
component, for a page size above 0 (it is 5 in every state of the store). -/
def totalPages (data : List ForecastDay) (itemsPerPage : Nat) : Int :=
  ⌈((data.length : ℚ) / (itemsPerPage : ℚ))⌉

/-- The constant `startIndex = currentPage * itemsPerPage`. -/
def startIndex (currentPage : Int) (itemsPerPage : Nat) : Int :=
  currentPage * itemsPerPage

/-- The constant `visibleForecast = data.slice(startIndex, startIndex +
itemsPerPage)`. -/
def visibleForecast (data : List ForecastDay) (currentPage : Int) (itemsPerPage : Nat) :
    List ForecastDay :=
  jsSlice data (startIndex currentPage itemsPerPage)
    (startIndex currentPage itemsPerPage + itemsPerPage)

/-- The callback `setPage(page)` of the provider. -/
def setPage (page : Int) : List Effect :=
  [.dispatch (.SET_PAGE page)]

/-- The handler `handleNext` of the component rendered with `data`,
`currentPage` and `itemsPerPage`. -/
def handleNext (data : List ForecastDay) (currentPage : Int) (itemsPerPage : Nat) :
    List Effect :=
  if currentPage < totalPages data itemsPerPage - 1 then setPage (currentPage + 1) else []

/-- The handler `handlePrev` of the component. -/
def handlePrev (currentPage : Int) : List Effect :=
  if currentPage > 0 then setPage (currentPage - 1) else []

/-- What can happen to the store: an action goes through the reducer, or the
user clicks Next or Previous on the forecast, which `App.jsx` renders with
`data = forecast` and which reads `currentPage`, `itemsPerPage` from the
state. -/
inductive StoreEvent where
  | action (a : Action)
  | next
  | prev
  deriving DecidableEq, Repr

/-- The state after the event. -/
def StoreEvent.apply (s : State) : StoreEvent → State
  | .action a => weatherReducer s a
  | .next => stateAfter s (handleNext s.forecast s.currentPage s.itemsPerPage)
  | .prev => stateAfter s (handlePrev s.currentPage)

/-- The event is a `SET_PAGE` action dispatched from outside the two
handlers. -/
def StoreEvent.isSetPage : StoreEvent → Bool
  | .action (.SET_PAGE _) => true
  | _ => false

/-- The caller's clamp on the page: page 0, or a page from 0 to
`totalPages - 1`. -/
def PageInv (s : State) : Prop :=
  s.currentPage = 0 ∨
    (0 ≤ s.currentPage ∧ s.currentPage ≤ totalPages s.forecast s.itemsPerPage - 1)

/-- A forecast day numbered `n`. -/
def sampleDay (n : Nat) : ForecastDay :=
  { date := toString n, tempMax := 20, tempMin := 10, avgTemp := 15, feelsLike := 15,
    icon := "01d", iconUrl := "https://openweathermap.org/img/wn/01d.png",
    description := "clear sky", avgHumidity := 50, avgWindSpeed := 3, avgPressure := 1013,
    avgClouds := 0 }

/-! ## Forecast aggregation (`formatForecastData` in `weatherService.js`)

The grouping by day is `dailyForecast`. The aggregates of a day come in two
versions: `toForecastDay` takes the sums and quotients over exact rationals,
`toForecastDayDouble` takes them in double precision, as the program
does. -/

/-- One element of `data.list` in the forecast response, with the fields
that `formatForecastData` reads (`icon` and `description` are those of
`weather[0]`). -/
structure ForecastSample where
  dt : Int
  temp : Rat
  feels_like : Rat
  humidity : Rat
  pressure : Rat
  icon : String
  description : String
  windSpeed : Rat
  clouds : Rat
  deriving DecidableEq, Repr

/-- The object `acc[date]` that the reduction builds for one day. -/
structure DayAcc where
  date : String
  temps : List Rat
  feelsLike : List Rat
  icons : List String
  descriptions : List String
  humidity : List Rat
  windSpeed : List Rat
  pressure : List Rat
  clouds : List Rat
  deriving DecidableEq, Repr

/-- The object a day starts with: its date and empty arrays. -/
def DayAcc.empty (date : String) : DayAcc :=
  { date := date, temps := [], feelsLike := [], icons := [], descriptions := [],
    humidity := [], windSpeed := [], pressure := [], clouds := [] }

/-- The eight `push` calls of the reduction for one sample. -/
def DayAcc.push (day : DayAcc) (item : ForecastSample) : DayAcc :=
  { day with
    temps := day.temps ++ [item.temp]
    feelsLike := day.feelsLike ++ [item.feels_like]
    icons := day.icons ++ [item.icon]
    descriptions := day.descriptions ++ [item.description]
    humidity := day.humidity ++ [item.humidity]
    windSpeed := day.windSpeed ++ [item.windSpeed]
    pressure := day.pressure ++ [item.pressure]
    clouds := day.clouds ++ [item.clouds] }

/-- One step of the reduction. The accumulator object is the list of its
entries in insertion order, which is the order of `Object.values` (the keys
are date strings, not array indices); `localDate dt` is
`new Date(dt * 1000).toLocaleDateString()`. -/
def addSample (localDate : Int → String) (acc : List (String × DayAcc))
    (item : ForecastSample) : List (String × DayAcc) :=
  let date := localDate item.dt
  let acc₁ :=
    if acc.any (fun e => e.1 == date) then acc else acc ++ [(date, DayAcc.empty date)]
  acc₁.map (fun e => if e.1 = date then (e.1, e.2.push item) else e)

/-- The object `dailyForecast`: the reduction of `data.list` from `{}`. -/
def dailyForecast (localDate : Int → String) (list : List ForecastSample) :
    List (String × DayAcc) :=
  list.foldl (addSample localDate) []

/-- The integer `Math.round(x)`: the nearest integer, halves going up. -/
def jsRound (x : Rat) : Int :=
  ⌊x + 1 / 2⌋

/-- The value `Math.max(...l)` of a non-empty array (every day holds at
least one sample). -/
def mathMax : List Rat → Rat
  | [] => 0
  | x :: xs => xs.foldl max x

/-- The value `Math.min(...l)` of a non-empty array. -/
def mathMin : List Rat → Rat
  | [] => 0
  | x :: xs => xs.foldl min x

/-- The mean `l.reduce((a, b) => a + b, 0) / l.length` over exact rationals:
no addition and no division is rounded (`meanDouble` rounds them). -/
def mean (l : List Rat) : Rat :=
  l.foldl (fun a b => a + b) 0 / (l.length : Rat)

/-- The element `l[Math.floor(l.length / 2)]` of a non-empty array. -/
def midpoint (l : List String) : String :=
  l.getD (l.length / 2) ""

/-- The object that the final `map` builds from a day, over exact
rationals. -/
def toForecastDay (day : DayAcc) : ForecastDay :=
  { date := day.date
    tempMax := jsRound (mathMax day.temps)
    tempMin := jsRound (mathMin day.temps)
    avgTemp := jsRound (mean day.temps)
    feelsLike := jsRound (mean day.feelsLike)
    icon := midpoint day.icons
    iconUrl := "https://openweathermap.org/img/wn/" ++ midpoint day.icons ++ ".png"
    description := midpoint day.descriptions
    avgHumidity := jsRound (mean day.humidity)
    avgWindSpeed := jsRound (mean day.windSpeed)
    avgPressure := jsRound (mean day.pressure)
    avgClouds := jsRound (mean day.clouds) }

/-- The array `formatForecastData(data)`, for `list = data.list`, over exact
rationals. -/
def formatForecastData (localDate : Int → String) (list : List ForecastSample) :
    List ForecastDay :=
  (dailyForecast localDate list).map (fun e => toForecastDay e.2)

/-- The samples of `list` that fall on the calendar day `date`, in order. -/
def samplesOf (localDate : Int → String) (date : String) (list : List ForecastSample) :
    List ForecastSample :=
  list.filter (fun item => localDate item.dt == date)

/-- The day object holding exactly the samples of `list` that fall on
`date`. -/
def collect (localDate : Int → String) (date : String) (list : List ForecastSample) :
    DayAcc :=
  (samplesOf localDate date list).foldl DayAcc.push (DayAcc.empty date)

/-- What the reduction has built after the samples `done`: one entry per
date seen, under its date, holding exactly the samples of that date. -/
def GroupInv (localDate : Int → String) (acc : List (String × DayAcc))
    (done : List ForecastSample) : Prop :=
  (∀ e ∈ acc, e.2 = collect localDate e.1 done) ∧
  (∀ item ∈ done, ∃ e ∈ acc, e.1 = localDate item.dt) ∧
  (∀ e ∈ acc, ∃ item ∈ done, localDate item.dt = e.1) ∧
  (acc.map Prod.fst).Nodup

/-- A forecast sample at time `dt` with temperature `temp`. -/
def sampleAt (dt : Int) (temp : Rat) : ForecastSample :=
  { dt := dt, temp := temp, feels_like := temp, humidity := 50, pressure := 1013,
    icon := "01d", description := "clear sky", windSpeed := 3, clouds := 0 }

/-- The callback `getWeatherByExactCoords(lat, lon)`. `unit` is the
`state.unit` it closes over and `coords` the outcome of
`weatherService.getWeatherByCoords(lat, lon, unit)`. -/
def getWeatherByExactCoords (unit : String) (lat lon : Rat)
    (coords : Outcome (WeatherSnapshot × List ForecastDay)) : List Effect :=
  .dispatch .FETCH_START :: .request (.getWeatherByCoords lat lon unit) ::
    match coords with
    | .resolved (current, forecast) =>
        .dispatch (.FETCH_SUCCESS (some (.snapshot current)) forecast) ::
          (if current.city ≠ "" then [.dispatch (.ADD_TO_HISTORY current.city)] else [])
    | .rejected message => [.dispatch (.FETCH_ERROR (some message))]
    | .pending => []

/-- Whether a promise has settled. -/
def Outcome.isSettled {α : Type} : Outcome α → Bool
  | .pending => false
  | _ => true

/-- The flow of `getWeatherByLocation` runs to its end: with the capability
present, the permission query settles and, unless it returns 'denied',
`getCurrentPosition` answers and, on a position, the coordinate lookup
settles. -/
def locateCompletes (hasGeolocation : Bool) (permission : Outcome String)
    (position : PositionOutcome) (coords : Outcome (WeatherSnapshot × List ForecastDay)) :
    Bool :=
  !hasGeolocation ||
    (permission.isSettled &&
      (permission == .resolved "denied" ||
        match position with
        | .position _ _ => coords.isSettled
        | .error _ => true
        | .throws => true
        | .pending => false))

/-! ## Weather data gateway (`services/weatherService.js`)

A gateway method is modelled by the HTTP requests it issues, in order, and
the outcome of the promise it returns, given the outcome of every request.
A request through `this.api` that fails is rejected by the response
interceptor with an `Error` whose message `handleError` chose. -/

/-- The number `s.length` of UTF-16 code units of a string. -/
def jsLength (s : String) : Nat :=
  s.toList.foldl (fun n ch => n + (if ch.toNat < 0x10000 then 1 else 2)) 0

/-- The test `s.includes(sub)`. -/
def includes (s sub : String) : Bool :=
  decide (List.IsInfix sub.toList s.toList)

/-- The value `a || null` of an optional string: the empty string is
falsy. -/
def truthy (a : Option String) : Option String :=
  a.filter (fun x => x ≠ "")

/-- The value `a || b` for an optional string `a` and a string `b`. -/
def orElse (a : Option String) (b : String) : String :=
  (truthy a).getD b

/-- The requests that the gateway sends through `this.api` and
`this.geoApi`. -/
inductive HttpRequest where
  | weatherByName (q : String) (units : String)
  | forecastByName (q : String) (units : String)
  | weatherByCoords (lat : Rat) (lon : Rat) (units : String)
  | forecastByCoords (lat : Rat) (lon : Rat) (units : String)
  | geoDirect (q : String) (limit : Nat)
  | geoReverse (lat : Rat) (lon : Rat) (limit : Nat)
  deriving DecidableEq, Repr

/-- One element of the response of the geocoding API. -/
structure GeoCity where
  name : String
  country : String
  state : Option String
  lat : Rat
  lon : Rat
  local_names : Option (List (String × String))
  deriving DecidableEq, Repr

/-- One element of the array that `searchCities` returns. -/
structure CitySuggestion where
  name : String
  country : String
  state : Option String
  lat : Rat
  lon : Rat
  localNames : List (String × String)
  displayName : String
  deriving DecidableEq, Repr

/-- The object that `getCityByCoords` returns. -/
structure CityInfo where
  name : String
  country : String
  state : Option String
  lat : Rat
  lon : Rat
  displayName : String
  deriving DecidableEq, Repr

/-- The fields of the current-weather response that `formatCurrentWeather`
reads (`country`, `sunrise`, `sunset` are those of `sys`, `description` and
`icon` those of `weather[0]`). -/
structure CurrentData where
  name : String
  country : String
  lat : Rat
  lon : Rat
  temp : Rat
  feels_like : Rat
  temp_min : Rat
  temp_max : Rat
  humidity : Rat
  pressure : Rat
  windSpeed : Rat
  windDeg : Rat
  windGust : Option Rat
  description : String
  icon : String
  dt : Int
  sunrise : Int
  sunset : Int
  clouds : Rat
  visibility : Rat
  alerts : Option (List String)
  deriving DecidableEq, Repr

/-- The method `formatCityDisplay(city)`. -/
def formatCityDisplay (city : GeoCity) : String :=
  match truthy city.state with
  | some state => city.name ++ ", " ++ state ++ ", " ++ city.country
  | none => city.name ++ ", " ++ city.country

/-- The object that the `map` of `searchCities` builds from one result. -/
def toSuggestion (city : GeoCity) : CitySuggestion :=
  { name := city.name
    country := city.country
    state := truthy city.state
    lat := city.lat
    lon := city.lon
    localNames := city.local_names.getD []
    displayName := formatCityDisplay city }

/-- The method `searchCities(query, limit)`; `geo` is the outcome of
`geoApi.get('/direct', ...)` with its `data`. -/
def searchCities (query : Option String) (limit : Nat) (geo : Outcome (List GeoCity)) :
    List HttpRequest × Outcome (List CitySuggestion) :=
  match query with
  | none => ([], .resolved [])
  | some q =>
      if q = "" ∨ jsLength q < 2 then
        ([], .resolved [])
      else
        ([.geoDirect q limit],
          match geo with
          | .resolved data => .resolved (data.map toSuggestion)
          | .rejected _ => .resolved []
          | .pending => .pending)

/-- The callback `searchCitySuggestions(query)` of the provider, which
awaits `weatherService.searchCities(query)` and turns a rejection into the
empty list. -/
def searchCitySuggestions (query : String) (geo : Outcome (List GeoCity)) :
    List HttpRequest × Outcome (List CitySuggestion) :=
  ((searchCities (some query) 5 geo).1,
    match (searchCities (some query) 5 geo).2 with
    | .rejected _ => .resolved []
    | out => out)

/-- The method `getCityByCoords(lat, lon)`; `reverse` is the outcome of
`geoApi.get('/reverse', ...)` with its `data`. Every failure is caught and
answered with `null`. -/
def getCityByCoords (lat lon : Rat) (reverse : Outcome (List GeoCity)) :
    List HttpRequest × Outcome (Option CityInfo) :=
  ([.geoReverse lat lon 1],
    match reverse with
    | .resolved (city :: _) =>
        .resolved (some
          { name := city.name
            country := city.country
            state := truthy city.state
            lat := city.lat
            lon := city.lon
            displayName := formatCityDisplay city })
    | .resolved [] => .resolved none
    | .rejected _ => .resolved none
    | .pending => .pending)

/-- The method `formatCurrentWeather(data, cityInfo)`. -/
def formatCurrentWeather (data : CurrentData) (cityInfo : Option CityInfo) : WeatherSnapshot :=
  { city := orElse (cityInfo.map (fun i => i.name)) data.name
    country := orElse (cityInfo.map (fun i => i.country)) data.country
    state := truthy (cityInfo.bind (fun i => i.state))
    lat := data.lat
    lon := data.lon
    temperature := jsRound data.temp
    feelsLike := jsRound data.feels_like
    tempMin := jsRound data.temp_min
    tempMax := jsRound data.temp_max
    humidity := data.humidity
    pressure := data.pressure
    windSpeed := data.windSpeed
    windDeg := data.windDeg
    windGust := data.windGust.filter (fun g => g ≠ 0)
    description := data.description
    icon := data.icon
    iconUrl := "https://openweathermap.org/img/wn/" ++ data.icon ++ "@2x.png"
    timestamp := data.dt
    sunrise := data.sunrise
    sunset := data.sunset
    clouds := data.clouds
    visibility := data.visibility
    alerts := data.alerts.getD [] }

/-- The method `getWeatherByCoords(lat, lon, units)`; `current` and
`forecast` are the outcomes of the two requests through `this.api` with
their `data` (`data.list` for the forecast), `forecastFirst` orders their
rejections, and `reverse` is the outcome of the reverse geocoding. -/
def getWeatherByCoords (localDate : Int → String) (lat lon : Rat) (units : String)
    (current : Outcome CurrentData) (forecast : Outcome (List ForecastSample))
    (forecastFirst : Bool) (reverse : Outcome (List GeoCity)) :
    List HttpRequest × Outcome (WeatherSnapshot × List ForecastDay) :=
  match promiseAll current forecast forecastFirst with
  | .resolved (currentData, forecastList) =>
      ([.weatherByCoords lat lon units, .forecastByCoords lat lon units] ++
          (getCityByCoords lat lon reverse).1,
        match (getCityByCoords lat lon reverse).2 with
        | .resolved cityInfo =>
            .resolved (formatCurrentWeather currentData cityInfo,
              formatForecastData localDate forecastList)
        | .rejected message => .rejected message
        | .pending => .pending)
  | .rejected message =>
      ([.weatherByCoords lat lon units, .forecastByCoords lat lon units], .rejected message)
  | .pending =>
      ([.weatherByCoords lat lon units, .forecastByCoords lat lon units], .pending)

/-- The method `getCurrentWeather(city, units)`; `direct` is the outcome of
the request by name, `geo` that of the geocoding of the name, and `current`,
`forecast`, `forecastFirst`, `reverse` are the outcomes of the requests of
`getWeatherByCoords` for the first candidate. -/
def getCurrentWeather (localDate : Int → String) (city : String) (units : String)
    (direct : Outcome CurrentData) (geo : Outcome (List GeoCity))
    (current : Outcome CurrentData) (forecast : Outcome (List ForecastSample))
    (forecastFirst : Bool) (reverse : Outcome (List GeoCity)) :
    List HttpRequest × Outcome WeatherValue :=
  match direct with
  | .resolved data =>
      ([.weatherByName city units], .resolved (.snapshot (formatCurrentWeather data none)))
  | .pending => ([.weatherByName city units], .pending)
  | .rejected message =>
      if includes message "City not found" then
        match (searchCities (some city) 5 geo).2 with
        | .resolved (first :: _) =>
            (.weatherByName city units :: (searchCities (some city) 5 geo).1 ++
                (getWeatherByCoords localDate first.lat first.lon units current forecast
                  forecastFirst reverse).1,
              match (getWeatherByCoords localDate first.lat first.lon units current forecast
                  forecastFirst reverse).2 with
              | .resolved (cur, fc) => .resolved (.bundle cur fc)
              | .rejected m => .rejected m
              | .pending => .pending)
        | .resolved [] =>
            (.weatherByName city units :: (searchCities (some city) 5 geo).1,
              .rejected message)
        | .rejected _ =>
            (.weatherByName city units :: (searchCities (some city) 5 geo).1,
              .rejected message)
        | .pending =>
            (.weatherByName city units :: (searchCities (some city) 5 geo).1, .pending)
      else
        ([.weatherByName city units], .rejected message)

/-- A current-weather response for the given place name. -/
def sampleCurrentData (name : String) : CurrentData :=
  { name := name, country := "FR", lat := 48, lon := 2, temp := 201 / 10,
    feels_like := 19, temp_min := 15, temp_max := 22, humidity := 50, pressure := 1013,
    windSpeed := 3, windDeg := 180, windGust := none, description := "clear sky",
    icon := "01d", dt := 1700000000, sunrise := 1699990000, sunset := 1700020000,
    clouds := 0, visibility := 10000, alerts := none }

/-- A geocoding result for the given place name. -/
def sampleGeoCity (name : String) : GeoCity :=
  { name := name, country := "FR", state := some "Ile-de-France", lat := 48, lon := 2,
    local_names := none }

/-! ## Search bar (`components/SearchBar.jsx`)

Time is in milliseconds. The suggestions effect has the dependencies
`[query, searchCitySuggestions]`, the second of which never changes: it runs
again when `query` has changed, first clearing the timeout of its previous
run and then setting a new one. -/

/-- The part of the component's state that the suggestions use: `timer` is
the pending timeout of the effect, with the time at which it fires and the
`query` that its callback `fetchSuggestions` closes over. -/
structure SearchBar where
  query : String
  suggestions : List CitySuggestion
  showSuggestions : Bool
  isSearching : Bool
  timer : Option (Nat × String)
  deriving DecidableEq, Repr

/-- The handler `handleInputChange` for the value `value` at time `now`,
and the effect that the change of `query` triggers. -/
def handleInputChange (bar : SearchBar) (now : Nat) (value : String) : SearchBar :=
  { bar with
    query := value
    showSuggestions := decide (2 ≤ jsLength value)
    timer := if value = bar.query then bar.timer else some (now + 300, value) }

/-- The callback `fetchSuggestions` of the effect run for `query`, with the
outcome `results` of `searchCitySuggestions(query)`: the component after it
and the queries it has fetched suggestions for. -/
def fetchSuggestions (bar : SearchBar) (query : String)
    (results : Outcome (List CitySuggestion)) : SearchBar × List String :=
  if jsLength query < 2 then
    ({ bar with suggestions := [] }, [])
  else
    match results with
    | .resolved r => ({ bar with suggestions := r, isSearching := false }, [query])
    | _ => ({ bar with isSearching := true }, [query])

/-- Time passes up to `now`: the pending timeout fires if its time has
come. The second component logs the suggestion fetches issued, with their
time. -/
def advance (lookup : String → Outcome (List CitySuggestion))
    (st : SearchBar × List (Nat × String)) (now : Nat) : SearchBar × List (Nat × String) :=
  match st.1.timer with
  | some (due, query) =>
      if due ≤ now then
        ((fetchSuggestions { st.1 with timer := none } query (lookup query)).1,
          st.2 ++ (fetchSuggestions { st.1 with timer := none } query (lookup query)).2.map
            (fun q => (due, q)))
      else st
  | none => st

/-- The user changes the input to `change.2` at time `change.1`. -/
def typeAt (lookup : String → Outcome (List CitySuggestion))
    (st : SearchBar × List (Nat × String)) (change : Nat × String) :
    SearchBar × List (Nat × String) :=
  (handleInputChange (advance lookup st change.1).1 change.1 change.2,
    (advance lookup st change.1).2)

/-- The component and the fetches issued after the changes, at time
`finish`. -/
def runTyping (lookup : String → Outcome (List CitySuggestion)) (bar : SearchBar)
    (changes : List (Nat × String)) (finish : Nat) : SearchBar × List (Nat × String) :=
  advance lookup (changes.foldl (typeAt lookup) (bar, [])) finish

/-- The change `b` follows the change `a` by less than 300 ms and changes the
text. -/
def Rapid (a b : Nat × String) : Prop :=
  a.1 ≤ b.1 ∧ b.1 < a.1 + 300 ∧ b.2 ≠ a.2

instance (a b : Nat × String) : Decidable (Rapid a b) := by
  unfold Rapid; infer_instance

/-- The condition `showSuggestions && suggestions.length > 0` under which
the suggestions dropdown is rendered. -/
def dropdownVisible (bar : SearchBar) : Bool :=
  bar.showSuggestions && decide (0 < bar.suggestions.length)

/-- The component with nothing typed, no suggestions and no pending
timeout. -/
def quietBar : SearchBar :=
  { query := "", suggestions := [], showSuggestions := false, isSearching := false,
    timer := none }

/-- The suggestions that a lookup of "pa" returns in the examples. -/
def sampleSuggestions : List CitySuggestion :=
  [toSuggestion (sampleGeoCity "Paris")]

/-! ## Display of the error (`App.jsx`, `components/SearchBar.jsx`) -/

/-- The test `error.toLowerCase().includes('location')`; only the ASCII
letters matter for the word looked for. -/
def mentionsLocation (error : String) : Bool :=
  decide (List.IsInfix "location".toList (error.toList.map Char.toLower))

/-- The message that the dashboard renders in `<ErrorMessage>`: `error`
when `error && !error.toLowerCase().includes('location') &&
locationPermission !== 'denied'`. -/
def bannerMessage (error : Option String) (locationPermission : String) : Option String :=
  match truthy error with
  | some e =>
      if !mentionsLocation e && locationPermission != "denied" then some e else none
  | none => none

/-- The value that the effect on `[error]` of the search bar gives to
`locationError` when it runs. -/
def locationErrorOf (error : Option String) : Option String :=
  match truthy error with
  | some e => if mentionsLocation e then some e else none
  | none => none

/-- The message that the search bar renders in its location-error box:
`locationError` when `locationError && locationPermission !== 'denied'`. -/
def locationBoxMessage (locationError : Option String) (locationPermission : String) :
    Option String :=
  match truthy locationError with
  | some e => if locationPermission != "denied" then some e else none
  | none => none

/-! ### Double precision

The finite doubles are the integer multiples of `2 ^ (-1074)` with at most
53 significant bits. A double is held as the integer that counts these
units; overflow to infinity is outside the model. -/

/-- The number of units in 1: `2 ^ 1074`. -/
def doubleUnit : Nat := 1 <<< 1074

/-- The number of binary digits of `n`, for `n < 2 ^ 4096`, which covers
every quotient of two finite doubles counted in units. -/
def bitLength (n : Nat) : Nat :=
  if n = 0 then 0
  else
    ([2048, 1024, 512, 256, 128, 64, 32, 16, 8, 4, 2, 1].foldl
      (fun (p : Nat × Nat) (s : Nat) => if p.1 >>> s = 0 then p else (p.1 >>> s, p.2 + s))
      (n, 0)).2 + 1

/-- The quotient `a / c` of two naturals rounded to the nearest natural with
at most 53 significant bits, ties going to the even one. -/
def roundNat (a c : Nat) : Nat :=
  let k := bitLength (a / c) - 53
  let d := c <<< k
  let q := a / d
  let r := a % d
  (if 2 * r < d then q else if d < 2 * r then q + 1 else if q % 2 = 0 then q else q + 1) <<< k

/-- The double nearest to `m / c` (round to nearest, ties to even), in
units. -/
def roundQuot (m : Int) (c : Nat) : Int :=
  match m with
  | .ofNat a => Int.ofNat (roundNat a c)
  | .negSucc a => Int.negOfNat (roundNat (a + 1) c)

/-- The double that a number written in the response is parsed to. -/
def toDouble (x : Rat) : Int :=
  roundQuot (x.num * Int.ofNat doubleUnit) x.den

/-- The rational value of a double. -/
def doubleValue (a : Int) : Rat :=
  (a : Rat) / (doubleUnit : Rat)

/-- The sum `a + b` of two doubles. -/
def addDouble (a b : Int) : Int :=
  roundQuot (a + b) 1

/-- The mean `l.reduce((a, b) => a + b, 0) / l.length` of an array of
doubles: every addition and the division give the nearest double. -/
def meanDouble (l : List Int) : Int :=
  roundQuot (l.foldl addDouble 0) l.length

/-- The integer `Math.round(x)` of a double: the floor of `x + 1/2`. -/
def roundDouble (a : Int) : Int :=
  (2 * a + Int.ofNat doubleUnit) / Int.ofNat (2 * doubleUnit)

/-- The value `Math.max(...l)` of a non-empty array of doubles. -/
def maxDouble : List Int → Int
  | [] => 0
  | x :: xs => xs.foldl max x

/-- The value `Math.min(...l)` of a non-empty array of doubles. -/
def minDouble : List Int → Int
  | [] => 0
  | x :: xs => xs.foldl min x

/-- The object that the final `map` builds from a day, as the program
computes it: the numbers of the response are doubles. -/
def toForecastDayDouble (day : DayAcc) : ForecastDay :=
  { date := day.date
    tempMax := roundDouble (maxDouble (day.temps.map toDouble))
    tempMin := roundDouble (minDouble (day.temps.map toDouble))
    avgTemp := roundDouble (meanDouble (day.temps.map toDouble))
    feelsLike := roundDouble (meanDouble (day.feelsLike.map toDouble))
    icon := midpoint day.icons
    iconUrl := "https://openweathermap.org/img/wn/" ++ midpoint day.icons ++ ".png"
    description := midpoint day.descriptions
    avgHumidity := roundDouble (meanDouble (day.humidity.map toDouble))
    avgWindSpeed := roundDouble (meanDouble (day.windSpeed.map toDouble))
    avgPressure := roundDouble (meanDouble (day.pressure.map toDouble))
    avgClouds := roundDouble (meanDouble (day.clouds.map toDouble)) }

/-- The array `formatForecastData(data)`, for `list = data.list`, as the
program computes it. -/
def formatForecastDataDouble (localDate : Int → String) (list : List ForecastSample) :
    List ForecastDay :=
  (dailyForecast localDate list).map (fun e => toForecastDayDouble e.2)

/-- The search bar's `locationError` after a render: the effect on
`[error]` runs when `error` differs from that of the previous render, and
otherwise `locationError` stays what it was. -/
def errorEffect (previous current : Option String) (locationError : Option String) :
    Option String :=
  if current = previous then locationError else locationErrorOf current

/-- The search bar's `locationError` after `handleLocationClick` has run up
to its call of `getWeatherByLocation`: `setLocationError(null)` unless the
permission is 'denied'. (`handleSubmit`, `handleHistoryClick` and
`handleSuggestionClick` set it to `null` as well.) -/
def locationErrorAfterClick (locationPermission : String) (locationError : Option String) :
    Option String :=
  if locationPermission = "denied" then locationError else none

/-- The suggestions effect after a handler has changed the component from
`old` to `bar` at time `now`: when `query` has changed, the pending timeout
is cleared and a new one is set. -/
def rearm (old : SearchBar) (now : Nat) (bar : SearchBar) : SearchBar :=
  { bar with timer := if bar.query = old.query then old.timer else some (now + 300, bar.query) }

/-- The handler `handleClearSearch`. -/
def handleClearSearch (bar : SearchBar) (now : Nat) : SearchBar :=
  rearm bar now { bar with query := "", suggestions := [] }

/-- The handler `handleSubmit`, for the part on the suggestions: it acts
when `query.trim()` is not empty. -/
def handleSubmit (bar : SearchBar) (now : Nat) : SearchBar :=
  if isBlank bar.query then bar
  else rearm bar now { bar with query := "", showSuggestions := false }

/-- The handler `handleHistoryClick`, for the part on the suggestions. -/
def handleHistoryClick (bar : SearchBar) (now : Nat) : SearchBar :=
  rearm bar now { bar with query := "", showSuggestions := false }

/-- The handler `handleSuggestionClick(city)`, for the part on the
suggestions. -/
def handleSuggestionClick (bar : SearchBar) (now : Nat) (city : CitySuggestion) : SearchBar :=
  rearm bar now
    { bar with query := city.displayName, showSuggestions := false, suggestions := [] }

/-- The handlers of the search bar that set `query`. -/
inductive QueryChange where
  | input (value : String)
  | clear
  | submit
  | history
  | suggestion (city : CitySuggestion)
  deriving DecidableEq, Repr

/-- The component after the handler has run at time `now`. -/
def QueryChange.apply (bar : SearchBar) (now : Nat) : QueryChange → SearchBar
  | .input value => handleInputChange bar now value
  | .clear => handleClearSearch bar now
  | .submit => handleSubmit bar now
  | .history => handleHistoryClick bar now
  | .suggestion city => handleSuggestionClick bar now city

/-! ## Properties of the collections -/

/-- The collection invariant of the search history: at most 10 entries,
pairwise distinct. -/
def HistoryInv (h : List String) : Prop :=
  h.length ≤ 10 ∧ h.Nodup

instance (h : List String) : Decidable (HistoryInv h) := by
  unfold HistoryInv; infer_instance

/-- The key invariant of the favourites: at most one entry per city name. -/
def FavoritesInv (f : List FavoriteEntry) : Prop :=
  (f.map (fun fav => fav.city)).Nodup

instance (f : List FavoriteEntry) : Decidable (FavoritesInv f) := by
  unfold FavoritesInv; infer_instance

/-! ## Helper lemmas -/

theorem historyInv_add (h : List String) (c : String) (hnd : h.Nodup) :
    HistoryInv ((c :: h.filter (fun city => city != c)).take 10) := by
  refine ⟨?_, ?_⟩
  · rw [List.length_take]; exact min_le_left _ _
  · have hcons : (c :: h.filter (fun city => city != c)).Nodup := by
      refine List.nodup_cons.2 ⟨?_, hnd.filter _⟩
      simp [List.mem_filter]
    exact hcons.sublist (List.take_sublist _ _)

theorem historyInv_filter (h : List String) (c : String) (hinv : HistoryInv h) :
    HistoryInv (h.filter (fun city => city != c)) :=
  ⟨le_trans (List.length_filter_le _ _) hinv.1, hinv.2.filter _⟩

theorem historyInv_reducer (s : State) (a : Action) (hinv : HistoryInv s.searchHistory) :
    HistoryInv (weatherReducer s a).searchHistory := by
  cases a <;> simp only [weatherReducer] <;> try exact hinv
  · exact historyInv_add _ _ hinv.2
  · exact historyInv_filter _ _ hinv
  · exact ⟨by simp, List.nodup_nil⟩
  · split <;> exact hinv

theorem historyInv_runActions (as : List Action) (s : State)
    (hinv : HistoryInv s.searchHistory) :
    HistoryInv (runActions s as).searchHistory := by
  induction as generalizing s with
  | nil => exact hinv
  | cons a as ih => exact ih _ (historyInv_reducer s a hinv)

theorem any_city_eq_false (f : List FavoriteEntry) (c : String) :
    f.any (fun fav => fav.city == c) = false ↔ ∀ fav ∈ f, fav.city ≠ c := by
  simp [List.any_eq_false]

theorem filter_city_ne_self (f : List FavoriteEntry) (c : String)
    (h : ∀ fav ∈ f, fav.city ≠ c) : f.filter (fun fav => fav.city != c) = f := by
  rw [List.filter_eq_self]
  intro fav hfav
  simpa using h fav hfav

theorem removeFromFavorites_of_absent (s : State) (c : String)
    (hs : ∀ fav ∈ s.favorites, fav.city ≠ c) :
    weatherReducer s (.REMOVE_FROM_FAVORITES c) = s := by
  simp only [weatherReducer, filter_city_ne_self _ _ hs]

theorem jsTrim_of_all_whiteSpace (l : List Char) (h : ∀ ch ∈ l, jsWhiteSpace ch = true) :
    jsTrim l = [] := by
  have h1 : l.dropWhile jsWhiteSpace = [] := List.dropWhile_eq_nil_iff.2 h
  simp [jsTrim, h1]

theorem searchWeather_of_not_blank (unit city : String) (current : Outcome WeatherValue)
    (forecast : Outcome (List ForecastDay)) (forecastFirst : Bool)
    (hc : isBlank city = false) :
    searchWeather unit city current forecast forecastFirst =
      [ .dispatch .FETCH_START,
        .request (.getCurrentWeather city unit),
        .request (.getForecast city unit) ] ++
      match promiseAll current forecast forecastFirst with
      | .resolved (cur, fc) =>
          [ .dispatch (.FETCH_SUCCESS (some cur) fc),
            .dispatch (.ADD_TO_HISTORY city) ]
      | .rejected message => [ .dispatch (.FETCH_ERROR (some message)) ]
      | .pending => [] := by
  simp [searchWeather, hc]

theorem promiseAll_rejected {α β : Type} (a : Outcome α) (b : Outcome β) (secondFirst : Bool)
    (h : a.isRejected = true ∨ b.isRejected = true) :
    ∃ m, promiseAll a b secondFirst = .rejected m ∧
      (a = .rejected m ∨ b = .rejected m) ∧
      (∀ m', a = .rejected m' → (b.isRejected = false ∨ secondFirst = false) → m = m') ∧
      (∀ m', b = .rejected m' → (a.isRejected = false ∨ secondFirst = true) → m = m') := by
  cases a <;> cases b <;> cases secondFirst <;>
    simp_all [promiseAll, Outcome.isRejected]

theorem favoritesInv_reducer (s : State) (a : Action) (hinv : FavoritesInv s.favorites) :
    FavoritesInv (weatherReducer s a).favorites := by
  cases a <;> simp only [weatherReducer] <;> try exact hinv
  · split
    · exact hinv
    · rename_i payload hany
      have hno : ∀ fav ∈ s.favorites, fav.city ≠ payload.city :=
        (any_city_eq_false _ _).1 (by simpa using hany)
      unfold FavoritesInv at hinv ⊢
      rw [List.map_append, List.map_singleton]
      refine List.Nodup.append hinv (List.nodup_singleton _) ?_
      rw [List.disjoint_singleton]
      intro hmem
      obtain ⟨fav, hfav, hcity⟩ := List.mem_map.1 hmem
      exact hno fav hfav hcity
  · exact (hinv.sublist ((List.filter_sublist _).map _))
  · exact List.nodup_nil

/-- A state with the given search history and favourites, nothing loaded. -/
def sampleState (history : List String) (favorites : List FavoriteEntry) : State :=
  { initialState ⟨some history, some favorites, none⟩ with unit := "metric" }

/-- A favourite entry for the given city and temperature. -/
def sampleFavorite (city : String) (temp : Int) : FavoriteEntry :=
  { city := city, country := "GB", temp := temp, unit := "metric", icon := "01d",
    timestamp := 0 }

/-- The rejection of a request that the gateway classifies as "not found". -/
def sampleNotFound {α : Type} : Outcome α :=
  .rejected "City not found. Please check the city name and try again."

/-- The rejection of a request that the gateway classifies as rate limited. -/
def sampleRateLimited {α : Type} : Outcome α :=
  .rejected "Too many requests. Please wait a moment and try again."

/-- A snapshot for the given city, as `formatCurrentWeather` builds it. -/
def sampleSnapshot (city : String) : WeatherSnapshot :=
  { city := city, country := "FR", state := none, lat := 48, lon := 2,
    temperature := 20, feelsLike := 19, tempMin := 15, tempMax := 22,
    humidity := 50, pressure := 1013, windSpeed := 3, windDeg := 180,
    windGust := none, description := "clear sky", icon := "01d",
    iconUrl := "https://openweathermap.org/img/wn/01d@2x.png",
    timestamp := 1700000000, sunrise := 1699990000, sunset := 1700020000,
    clouds := 0, visibility := 10000, alerts := [] }

/-! ## Search history -/

/-- C1. History invariant: from a state whose search history has at most 10
entries, pairwise distinct, every reducer action leads to a state whose
search history again has at most 10 entries, pairwise distinct; so does every
finite sequence of actions; the empty history satisfies the invariant. -/
theorem history_invariant (s : State) (hinv : HistoryInv s.searchHistory) :
    (∀ a : Action, HistoryInv (weatherReducer s a).searchHistory) ∧
    (∀ as : List Action, HistoryInv (runActions s as).searchHistory) ∧
    HistoryInv [] :=
  ⟨fun a => historyInv_reducer s a hinv, fun as => historyInv_runActions as s hinv,
    by simp [HistoryInv]⟩

theorem history_invariant_witness :
    HistoryInv (sampleState ["Paris", "Oslo"] []).searchHistory ∧
    HistoryInv (runActions (sampleState ["Paris", "Oslo"] [])
      [.ADD_TO_HISTORY "Oslo", .ADD_TO_HISTORY "Rome", .REMOVE_FROM_HISTORY "Paris"]).searchHistory :=
  ⟨by decide, (history_invariant (sampleState ["Paris", "Oslo"] []) (by decide)).2.1 _⟩

/-- C2. Move-to-front: when the history `h` has at most 10 pairwise distinct
entries and contains `c`, `ADD_TO_HISTORY(c)` yields `c` followed by the
other entries of `h` in their order in `h`; the length is that of `h` and `c`
occurs exactly once. -/
theorem addToHistory_present (s : State) (c : String)
    (hinv : HistoryInv s.searchHistory) (hc : c ∈ s.searchHistory) :
    (weatherReducer s (.ADD_TO_HISTORY c)).searchHistory
        = c :: s.searchHistory.filter (fun city => city != c) ∧
    s.searchHistory.filter (fun city => city != c) = s.searchHistory.erase c ∧
    (s.searchHistory.filter (fun city => city != c)).Sublist s.searchHistory ∧
    (∀ x ∈ s.searchHistory, x ≠ c → x ∈ s.searchHistory.filter (fun city => city != c)) ∧
    (weatherReducer s (.ADD_TO_HISTORY c)).searchHistory.length = s.searchHistory.length ∧
    (weatherReducer s (.ADD_TO_HISTORY c)).searchHistory.count c = 1 := by
  obtain ⟨hlen, hnd⟩ := hinv
  have herase : s.searchHistory.filter (fun city => city != c) = s.searchHistory.erase c := by
    rw [hnd.erase_eq_filter]
  have hlen' : (s.searchHistory.filter (fun city => city != c)).length + 1
      = s.searchHistory.length := by
    rw [herase, List.length_erase_of_mem hc]
    have : 0 < s.searchHistory.length := List.length_pos_of_mem hc
    omega
  have hres : (weatherReducer s (.ADD_TO_HISTORY c)).searchHistory
      = c :: s.searchHistory.filter (fun city => city != c) := by
    simp only [weatherReducer]
    apply List.take_of_length_le
    simp only [List.length_cons]
    omega
  refine ⟨hres, herase, List.filter_sublist _, ?_, ?_, ?_⟩
  · intro x hx hxc
    simp [List.mem_filter, hx, hxc]
  · rw [hres, List.length_cons, hlen']
  · rw [hres, List.count_cons_self, List.count_eq_zero_of_not_mem]
    simp [List.mem_filter]

theorem addToHistory_present_witness :
    (weatherReducer (sampleState ["Paris", "Oslo", "Rome"] []) (.ADD_TO_HISTORY "Oslo")).searchHistory
      = ["Oslo", "Paris", "Rome"] :=
  (addToHistory_present (sampleState ["Paris", "Oslo", "Rome"] []) "Oslo"
    (by decide) (by decide)).1.trans (by decide)

/-- C3. Most-recent-first with eviction: when `c` is not in the history `h`,
`ADD_TO_HISTORY(c)` yields the first 10 elements of `c :: h`: `c` is at index
0, the entry at index `i` of `h` is at index `i + 1` as long as that is below
10, and when `h` has 10 entries the result is `c` followed by `h` without its
last entry. -/
theorem addToHistory_absent (s : State) (c : String) (hc : c ∉ s.searchHistory) :
    (weatherReducer s (.ADD_TO_HISTORY c)).searchHistory = (c :: s.searchHistory).take 10 ∧
    (weatherReducer s (.ADD_TO_HISTORY c)).searchHistory[0]? = some c ∧
    (∀ i : Nat, i + 1 < 10 →
      (weatherReducer s (.ADD_TO_HISTORY c)).searchHistory[i + 1]? = s.searchHistory[i]?) ∧
    (s.searchHistory.length = 10 →
      (weatherReducer s (.ADD_TO_HISTORY c)).searchHistory = c :: s.searchHistory.dropLast ∧
      (weatherReducer s (.ADD_TO_HISTORY c)).searchHistory.length = 10) := by
  have hfilter : s.searchHistory.filter (fun city => city != c) = s.searchHistory := by
    rw [List.filter_eq_self]
    intro x hx
    have : x ≠ c := fun h => hc (h ▸ hx)
    simpa using this
  have hres : (weatherReducer s (.ADD_TO_HISTORY c)).searchHistory
      = (c :: s.searchHistory).take 10 := by
    simp only [weatherReducer, hfilter]
  refine ⟨hres, ?_, ?_, ?_⟩
  · rw [hres]; simp
  · intro i hi
    rw [hres, List.getElem?_take_of_lt hi]
    simp
  · intro hlen
    rw [hres, List.dropLast_eq_take, hlen]
    refine ⟨rfl, ?_⟩
    simp [List.length_take, hlen]

theorem addToHistory_absent_witness :
    (weatherReducer (sampleState ["a", "b", "c", "d", "e", "f", "g", "h", "i", "j"] [])
      (.ADD_TO_HISTORY "k")).searchHistory
      = ["k", "a", "b", "c", "d", "e", "f", "g", "h", "i"] :=
  (addToHistory_absent (sampleState ["a", "b", "c", "d", "e", "f", "g", "h", "i", "j"] []) "k"
    (by decide)).1.trans (by decide)

/-! ## Favourites -/

/-- C4. `ADD_TO_FAVORITES` is idempotent per city name: when no favourite of
`s` has city `c` and `p`, `q` are payloads with city `c`, adding `p` and then
`q` gives the same state as adding `p` alone; in that state the favourites
are those of `s` followed by `p`, and `p` is the only entry with city `c`. -/
theorem addToFavorites_idempotent (s : State) (c : String) (p q : FavoriteEntry)
    (hs : ∀ fav ∈ s.favorites, fav.city ≠ c) (hp : p.city = c) (hq : q.city = c) :
    weatherReducer (weatherReducer s (.ADD_TO_FAVORITES p)) (.ADD_TO_FAVORITES q)
        = weatherReducer s (.ADD_TO_FAVORITES p) ∧
    weatherReducer s (.ADD_TO_FAVORITES p) = { s with favorites := s.favorites ++ [p] } ∧
    (weatherReducer s (.ADD_TO_FAVORITES p)).favorites.filter (fun fav => fav.city == c) = [p] ∧
    isFavorite (weatherReducer s (.ADD_TO_FAVORITES p)) c = true := by
  subst hp
  have hany : s.favorites.any (fun fav => fav.city == p.city) = false :=
    (any_city_eq_false _ _).2 hs
  have hadd : weatherReducer s (.ADD_TO_FAVORITES p) = { s with favorites := s.favorites ++ [p] } := by
    simp only [weatherReducer, hany]
    rfl
  have hnone : s.favorites.filter (fun fav => fav.city == p.city) = [] := by
    rw [List.filter_eq_nil_iff]
    intro fav hfav
    simpa using hs fav hfav
  refine ⟨?_, hadd, ?_, ?_⟩
  · rw [hadd]
    simp [weatherReducer, hq]
  · rw [hadd]
    simp [List.filter_append, hnone]
  · rw [hadd]
    simp [isFavorite]

theorem addToFavorites_idempotent_witness :
    weatherReducer
        (weatherReducer (sampleState [] [sampleFavorite "Oslo" 3]) (.ADD_TO_FAVORITES (sampleFavorite "Paris" 20)))
        (.ADD_TO_FAVORITES (sampleFavorite "Paris" 25))
      = weatherReducer (sampleState [] [sampleFavorite "Oslo" 3]) (.ADD_TO_FAVORITES (sampleFavorite "Paris" 20)) :=
  (addToFavorites_idempotent (sampleState [] [sampleFavorite "Oslo" 3]) "Paris"
    (sampleFavorite "Paris" 20) (sampleFavorite "Paris" 25) (by decide) rfl rfl).1

/-- C5. Favourites uniqueness invariant: from a state whose favourites hold at
most one entry per city name, every reducer action leads to a state whose
favourites again hold at most one entry per city name. -/
theorem favorites_invariant (s : State) (a : Action) (hinv : FavoritesInv s.favorites) :
    FavoritesInv (weatherReducer s a).favorites :=
  favoritesInv_reducer s a hinv

theorem favorites_invariant_witness :
    FavoritesInv (sampleState [] [sampleFavorite "Oslo" 3]).favorites ∧
    FavoritesInv (weatherReducer (sampleState [] [sampleFavorite "Oslo" 3])
      (.ADD_TO_FAVORITES (sampleFavorite "Oslo" 7))).favorites :=
  ⟨by decide, favorites_invariant _ _ (by decide)⟩

/-- C6. `REMOVE_FROM_FAVORITES` on an absent city is a no-op: when no
favourite of `s` has city `c`, `REMOVE_FROM_FAVORITES(c)` returns a state
equal to `s` in every field. -/
theorem removeFromFavorites_absent (s : State) (c : String)
    (hs : ∀ fav ∈ s.favorites, fav.city ≠ c) :
    weatherReducer s (.REMOVE_FROM_FAVORITES c) = s :=
  removeFromFavorites_of_absent s c hs

theorem removeFromFavorites_absent_witness :
    weatherReducer (sampleState ["Oslo"] [sampleFavorite "Oslo" 3]) (.REMOVE_FROM_FAVORITES "Paris")
      = sampleState ["Oslo"] [sampleFavorite "Oslo" 3] :=
  removeFromFavorites_absent (sampleState ["Oslo"] [sampleFavorite "Oslo" 3]) "Paris" (by decide)

/-- C7. `REMOVE_FROM_FAVORITES` is idempotent: applying it twice for city `c`
gives the same state as applying it once; in that state `isFavorite(c)` is
false, the favourites are exactly the favourites of `s` whose city is not
`c`, in their order in `s`, and every other field is that of `s`. -/
theorem removeFromFavorites_idempotent (s : State) (c : String) :
    weatherReducer (weatherReducer s (.REMOVE_FROM_FAVORITES c)) (.REMOVE_FROM_FAVORITES c)
        = weatherReducer s (.REMOVE_FROM_FAVORITES c) ∧
    isFavorite (weatherReducer s (.REMOVE_FROM_FAVORITES c)) c = false ∧
    (∀ fav ∈ (weatherReducer s (.REMOVE_FROM_FAVORITES c)).favorites, fav.city ≠ c) ∧
    weatherReducer s (.REMOVE_FROM_FAVORITES c)
        = { s with favorites := s.favorites.filter (fun fav => fav.city != c) } ∧
    (s.favorites.filter (fun fav => fav.city != c)).Sublist s.favorites ∧
    (∀ fav ∈ s.favorites, fav.city ≠ c →
      fav ∈ (weatherReducer s (.REMOVE_FROM_FAVORITES c)).favorites) := by
  have hgone : ∀ fav ∈ (weatherReducer s (.REMOVE_FROM_FAVORITES c)).favorites, fav.city ≠ c := by
    intro fav hfav
    simp only [weatherReducer, List.mem_filter] at hfav
    simpa using hfav.2
  refine ⟨removeFromFavorites_of_absent _ c hgone, ?_, hgone, rfl, List.filter_sublist _, ?_⟩
  · exact (any_city_eq_false _ _).2 hgone
  · intro fav hfav hne
    simp [weatherReducer, List.mem_filter, hfav, hne]

/-! ## The SEARCH intent -/

/-- C8. SEARCH with blank input is a no-op: when every character of `c` is
white space (in particular when `c` is empty), `searchWeather(c)` performs no
effect at all: it dispatches no action and issues no gateway request, and the
state, its loading flag included, is unchanged. -/
theorem searchWeather_blank (s : State) (unit c : String) (current : Outcome WeatherValue)
    (forecast : Outcome (List ForecastDay)) (forecastFirst : Bool)
    (hc : ∀ ch ∈ c.toList, jsWhiteSpace ch = true) :
    searchWeather unit c current forecast forecastFirst = [] ∧
    dispatched (searchWeather unit c current forecast forecastFirst) = [] ∧
    requests (searchWeather unit c current forecast forecastFirst) = [] ∧
    stateAfter s (searchWeather unit c current forecast forecastFirst) = s ∧
    (stateAfter s (searchWeather unit c current forecast forecastFirst)).loading = s.loading := by
  have hblank : isBlank c = true := by
    unfold isBlank
    rw [jsTrim_of_all_whiteSpace c.toList hc]
    rfl
  have hnil : searchWeather unit c current forecast forecastFirst = [] := by
    simp [searchWeather, hblank]
  rw [hnil]
  exact ⟨rfl, rfl, rfl, rfl, rfl⟩

theorem searchWeather_blank_witness :
    searchWeather "metric" " \t\n" sampleRateLimited sampleNotFound false = [] :=
  (searchWeather_blank (sampleState [] []) "metric" " \t\n" _ _ false (by decide)).1

/-- C9. SEARCH success: for a non-blank city `c`, when the two gateway calls
resolve with `current` and `forecast`, the state after `searchWeather(c)` is
`ADD_TO_HISTORY(c)` applied to `FETCH_SUCCESS(current, forecast)` applied to
`FETCH_START` applied to the starting state: it holds `current` and
`forecast`, page 0, no loading, no error, and `c` as first history entry. -/
theorem searchWeather_success (s : State) (unit c : String) (current : WeatherValue)
    (forecast : List ForecastDay) (forecastFirst : Bool) (hc : isBlank c = false) :
    dispatched (searchWeather unit c (.resolved current) (.resolved forecast) forecastFirst)
        = [.FETCH_START, .FETCH_SUCCESS (some current) forecast, .ADD_TO_HISTORY c] ∧
    requests (searchWeather unit c (.resolved current) (.resolved forecast) forecastFirst)
        = [.getCurrentWeather c unit, .getForecast c unit] ∧
    stateAfter s (searchWeather unit c (.resolved current) (.resolved forecast) forecastFirst)
        = weatherReducer
            (weatherReducer (weatherReducer s .FETCH_START)
              (.FETCH_SUCCESS (some current) forecast))
            (.ADD_TO_HISTORY c) ∧
    (stateAfter s (searchWeather unit c (.resolved current) (.resolved forecast)
      forecastFirst)).currentWeather = some current ∧
    (stateAfter s (searchWeather unit c (.resolved current) (.resolved forecast)
      forecastFirst)).forecast = forecast ∧
    (stateAfter s (searchWeather unit c (.resolved current) (.resolved forecast)
      forecastFirst)).currentPage = 0 ∧
    (stateAfter s (searchWeather unit c (.resolved current) (.resolved forecast)
      forecastFirst)).loading = false ∧
    (stateAfter s (searchWeather unit c (.resolved current) (.resolved forecast)
      forecastFirst)).error = none ∧
    (stateAfter s (searchWeather unit c (.resolved current) (.resolved forecast)
      forecastFirst)).searchHistory.head? = some c := by
  have heff := searchWeather_of_not_blank unit c (.resolved current) (.resolved forecast)
    forecastFirst hc
  simp only [promiseAll] at heff
  rw [heff]
  refine ⟨rfl, rfl, rfl, rfl, rfl, rfl, rfl, rfl, ?_⟩
  simp [stateAfter, runActions, dispatched, weatherReducer]

theorem searchWeather_success_witness :
    (stateAfter (sampleState ["Oslo", "Paris"] [])
      (searchWeather "metric" "Paris" (.resolved (.snapshot (sampleSnapshot "Paris")))
        (.resolved []) false)).searchHistory = ["Paris", "Oslo"] :=
  ((searchWeather_success (sampleState ["Oslo", "Paris"] []) "metric" "Paris"
    (.snapshot (sampleSnapshot "Paris")) [] false (by decide)).2.2.1 ▸ rfl :
    (stateAfter (sampleState ["Oslo", "Paris"] [])
      (searchWeather "metric" "Paris" (.resolved (.snapshot (sampleSnapshot "Paris")))
        (.resolved []) false)).searchHistory = ["Paris", "Oslo"])

/-- C10, as first stated, fails when both requests are rejected with
different messages: the error is the message of the rejection that comes
first, so it is not the message of the other request, whichever of the two
is rejected first. -/
theorem searchWeather_failure_two_messages :
    (stateAfter (sampleState [] [])
      (searchWeather "metric" "Paris" sampleNotFound sampleRateLimited false)).error
        = some "City not found. Please check the city name and try again." ∧
    (stateAfter (sampleState [] [])
      (searchWeather "metric" "Paris" sampleNotFound sampleRateLimited true)).error
        = some "Too many requests. Please wait a moment and try again." ∧
    ¬ (∀ m : String,
        ((sampleNotFound : Outcome WeatherValue) = .rejected m ∨
          (sampleRateLimited : Outcome (List ForecastDay)) = .rejected m) →
        (stateAfter (sampleState [] [])
          (searchWeather "metric" "Paris" sampleNotFound sampleRateLimited false)).error
            = some m) ∧
    ¬ (∀ m : String,
        ((sampleNotFound : Outcome WeatherValue) = .rejected m ∨
          (sampleRateLimited : Outcome (List ForecastDay)) = .rejected m) →
        (stateAfter (sampleState [] [])
          (searchWeather "metric" "Paris" sampleNotFound sampleRateLimited true)).error
            = some m) := by
  have h1 : (stateAfter (sampleState [] [])
      (searchWeather "metric" "Paris" sampleNotFound sampleRateLimited false)).error
        = some "City not found. Please check the city name and try again." := by decide
  have h2 : (stateAfter (sampleState [] [])
      (searchWeather "metric" "Paris" sampleNotFound sampleRateLimited true)).error
        = some "Too many requests. Please wait a moment and try again." := by decide
  refine ⟨h1, h2, ?_, ?_⟩
  · intro h
    have := h "Too many requests. Please wait a moment and try again." (Or.inr rfl)
    rw [h1] at this
    exact absurd this (by decide)
  · intro h
    have := h "City not found. Please check the city name and try again." (Or.inl rfl)
    rw [h2] at this
    exact absurd this (by decide)

/-- C10, amended. SEARCH failure is stale-but-visible: for a non-blank city,
when the current-weather request or the forecast request is rejected, the
joint await is rejected with the message `m` of one of them (of the one that
is rejected first; of the only one rejected when the other is not), only
`FETCH_START` and `FETCH_ERROR(m)` are dispatched, and the state after
`searchWeather(c)` has error `m` and no loading, every other field, the
current weather, forecast, page and search history among them, being that of
the starting state. -/
theorem searchWeather_failure (s : State) (unit c : String) (current : Outcome WeatherValue)
    (forecast : Outcome (List ForecastDay)) (forecastFirst : Bool) (hc : isBlank c = false)
    (hfail : current.isRejected = true ∨ forecast.isRejected = true) :
    ∃ m : String,
      promiseAll current forecast forecastFirst = .rejected m ∧
      (current = .rejected m ∨ forecast = .rejected m) ∧
      (∀ m', current = .rejected m' →
        (forecast.isRejected = false ∨ forecastFirst = false) → m = m') ∧
      (∀ m', forecast = .rejected m' →
        (current.isRejected = false ∨ forecastFirst = true) → m = m') ∧
      dispatched (searchWeather unit c current forecast forecastFirst)
        = [.FETCH_START, .FETCH_ERROR (some m)] ∧
      stateAfter s (searchWeather unit c current forecast forecastFirst)
        = { s with loading := false, error := some m } ∧
      (stateAfter s (searchWeather unit c current forecast forecastFirst)).error = some m ∧
      (stateAfter s (searchWeather unit c current forecast forecastFirst)).loading = false ∧
      (stateAfter s (searchWeather unit c current forecast forecastFirst)).currentWeather
        = s.currentWeather ∧
      (stateAfter s (searchWeather unit c current forecast forecastFirst)).forecast
        = s.forecast ∧
      (stateAfter s (searchWeather unit c current forecast forecastFirst)).currentPage
        = s.currentPage ∧
      (stateAfter s (searchWeather unit c current forecast forecastFirst)).searchHistory
        = s.searchHistory := by
  obtain ⟨m, hm, hmem, hcur, hfc⟩ := promiseAll_rejected current forecast forecastFirst hfail
  have heff := searchWeather_of_not_blank unit c current forecast forecastFirst hc
  rw [hm] at heff
  refine ⟨m, hm, hmem, hcur, hfc, ?_⟩
  rw [heff]
  exact ⟨rfl, rfl, rfl, rfl, rfl, rfl, rfl, rfl⟩

theorem searchWeather_failure_witness :
    ∃ m : String,
      (stateAfter (sampleState ["Oslo"] [])
        (searchWeather "metric" "Atlantis" sampleNotFound (.resolved []) false)).error = some m ∧
      (stateAfter (sampleState ["Oslo"] [])
        (searchWeather "metric" "Atlantis" sampleNotFound (.resolved []) false)).searchHistory
          = ["Oslo"] :=
  (searchWeather_failure (sampleState ["Oslo"] []) "metric" "Atlantis" sampleNotFound
    (.resolved []) false (by decide) (Or.inl rfl)).imp
    (fun _ h => ⟨h.2.2.2.2.2.2.1, h.2.2.2.2.2.2.2.2.2.2.2⟩)

/-! ## The LOCATE intent -/

theorem getWeatherByLocation_query_denied (unit : String) (position : PositionOutcome)
    (coords : Outcome (WeatherSnapshot × List ForecastDay)) :
    getWeatherByLocation unit true (.resolved "denied") position coords =
      [ .dispatch .FETCH_START,
        .dispatch (.SET_LOCATION_PERMISSION "denied"),
        .dispatch (.SET_LOCATION_PERMISSION "denied"),
        .dispatch (.FETCH_ERROR none),
        .dispatch (.FETCH_SUCCESS none []) ] := by
  simp [getWeatherByLocation, checkGeolocationStatus]

theorem getWeatherByLocation_position_error (unit : String) (permission : Outcome String)
    (code : Nat) (coords : Outcome (WeatherSnapshot × List ForecastDay))
    (hp : permission ≠ .pending) (hq : permission ≠ .resolved "denied") :
    ∃ status : String,
      getWeatherByLocation unit true permission (.error code) coords =
        .dispatch .FETCH_START :: .dispatch (.SET_LOCATION_PERMISSION status) ::
          positionError code := by
  cases permission with
  | resolved status =>
      have hne : status ≠ "denied" := fun h => hq (by rw [h])
      exact ⟨status, by simp [getWeatherByLocation, checkGeolocationStatus, hne]⟩
  | rejected m =>
      exact ⟨"unknown", by simp [getWeatherByLocation, checkGeolocationStatus]⟩
  | pending => exact absurd rfl hp

/-- C11. Geolocation denial: with the geolocation capability present, when
the permission query returns 'denied', or the query settles and the position
request fails with `PERMISSION_DENIED`, the state after
`getWeatherByLocation` has no current weather, an empty forecast, no error,
no loading and `locationPermission = 'denied'`, and no gateway request is
issued. -/
theorem getWeatherByLocation_denied (s : State) (unit : String) (permission : Outcome String)
    (position : PositionOutcome) (coords : Outcome (WeatherSnapshot × List ForecastDay))
    (hdenied : permission = .resolved "denied" ∨
      (permission ≠ .pending ∧ position = .error PERMISSION_DENIED)) :
    (stateAfter s (getWeatherByLocation unit true permission position coords)).currentWeather
      = none ∧
    (stateAfter s (getWeatherByLocation unit true permission position coords)).forecast = [] ∧
    (stateAfter s (getWeatherByLocation unit true permission position coords)).error = none ∧
    (stateAfter s (getWeatherByLocation unit true permission position coords)).loading
      = false ∧
    (stateAfter s (getWeatherByLocation unit true permission position coords)).locationPermission
      = "denied" ∧
    requests (getWeatherByLocation unit true permission position coords) = [] := by
  by_cases hq : permission = .resolved "denied"
  · subst hq
    rw [getWeatherByLocation_query_denied]
    exact ⟨rfl, rfl, rfl, rfl, rfl, rfl⟩
  · obtain ⟨hp, hpos⟩ := hdenied.resolve_left hq
    subst hpos
    obtain ⟨status, heff⟩ :=
      getWeatherByLocation_position_error unit permission PERMISSION_DENIED coords hp hq
    rw [heff]
    exact ⟨rfl, rfl, rfl, rfl, rfl, rfl⟩

theorem getWeatherByLocation_denied_witness :
    (stateAfter (sampleState ["Oslo"] [])
      (getWeatherByLocation "metric" true (.resolved "prompt") (.error PERMISSION_DENIED)
        .pending)).locationPermission = "denied" :=
  (getWeatherByLocation_denied (sampleState ["Oslo"] []) "metric" (.resolved "prompt")
    (.error PERMISSION_DENIED) .pending (Or.inr ⟨by decide, rfl⟩)).2.2.2.2.1

/-- C12. Geolocation unsupported: without the geolocation capability,
`getWeatherByLocation` ends with the 'Geolocation is not supported' message
as error and `locationPermission = 'unsupported'`; it does not dispatch
`FETCH_START`, loading is false, no gateway request is issued, and the
current weather, forecast, history and favourites are those of the starting
state. -/
theorem getWeatherByLocation_unsupported (s : State) (unit : String)
    (permission : Outcome String) (position : PositionOutcome)
    (coords : Outcome (WeatherSnapshot × List ForecastDay)) :
    dispatched (getWeatherByLocation unit false permission position coords) =
      [ .FETCH_ERROR
          (some "Geolocation is not supported by your browser. Please search for a city manually."),
        .SET_LOCATION_PERMISSION "unsupported" ] ∧
    Action.FETCH_START ∉ dispatched (getWeatherByLocation unit false permission position coords) ∧
    requests (getWeatherByLocation unit false permission position coords) = [] ∧
    stateAfter s (getWeatherByLocation unit false permission position coords) =
      { s with
        loading := false
        error := some
          "Geolocation is not supported by your browser. Please search for a city manually."
        locationPermission := "unsupported" } ∧
    (stateAfter s (getWeatherByLocation unit false permission position coords)).currentWeather
      = s.currentWeather ∧
    (stateAfter s (getWeatherByLocation unit false permission position coords)).forecast
      = s.forecast ∧
    (stateAfter s (getWeatherByLocation unit false permission position coords)).searchHistory
      = s.searchHistory ∧
    (stateAfter s (getWeatherByLocation unit false permission position coords)).favorites
      = s.favorites := by
  have heff : getWeatherByLocation unit false permission position coords =
      [ .dispatch (.FETCH_ERROR
          (some "Geolocation is not supported by your browser. Please search for a city manually.")),
        .dispatch (.SET_LOCATION_PERMISSION "unsupported") ] := by
    simp [getWeatherByLocation]
  rw [heff]
  refine ⟨rfl, ?_, rfl, rfl, rfl, rfl, rfl, rfl⟩
  simp [dispatched]

/-- C13. Geolocation failure messages: the position-error handler answers
`POSITION_UNAVAILABLE`, `TIMEOUT` and every code other than these and
`PERMISSION_DENIED` with one `FETCH_ERROR` each, carrying three pairwise
distinct messages; it answers `PERMISSION_DENIED` with no error and
`locationPermission = 'denied'`, and the flow then ends in the same state as
when the permission query returns 'denied'. -/
theorem positionError_messages (s : State) (unit : String) (permission : Outcome String)
    (position : PositionOutcome) (coords coords' : Outcome (WeatherSnapshot × List ForecastDay))
    (hp : permission ≠ .pending) (hq : permission ≠ .resolved "denied") :
    positionError POSITION_UNAVAILABLE = [ .dispatch (.FETCH_ERROR
      (some "Location information is unavailable. Please search for a city manually.")) ] ∧
    positionError TIMEOUT = [ .dispatch (.FETCH_ERROR
      (some "Location request timed out. Please search for a city manually.")) ] ∧
    (∀ code : Nat, code ≠ PERMISSION_DENIED → code ≠ POSITION_UNAVAILABLE → code ≠ TIMEOUT →
      positionError code = [ .dispatch (.FETCH_ERROR
        (some "Unable to retrieve your location. Please search for a city manually.")) ]) ∧
    ("Location information is unavailable. Please search for a city manually."
      ≠ "Location request timed out. Please search for a city manually.") ∧
    ("Location information is unavailable. Please search for a city manually."
      ≠ "Unable to retrieve your location. Please search for a city manually.") ∧
    ("Location request timed out. Please search for a city manually."
      ≠ "Unable to retrieve your location. Please search for a city manually.") ∧
    (∀ code : Nat, code ≠ PERMISSION_DENIED →
      ∃ m : String, (stateAfter s (positionError code)).error = some m) ∧
    (stateAfter s (positionError PERMISSION_DENIED)).error = none ∧
    (stateAfter s (positionError PERMISSION_DENIED)).locationPermission = "denied" ∧
    stateAfter s (getWeatherByLocation unit true permission (.error PERMISSION_DENIED) coords)
      = stateAfter s (getWeatherByLocation unit true (.resolved "denied") position coords') := by
  refine ⟨rfl, rfl, ?_, by decide, by decide, by decide, ?_, rfl, rfl, ?_⟩
  · intro code h1 h2 h3
    simp [positionError, h1, h2, h3]
  · intro code h1
    unfold positionError
    rw [if_neg h1]
    split
    · exact ⟨_, rfl⟩
    · split
      · exact ⟨_, rfl⟩
      · exact ⟨_, rfl⟩
  · obtain ⟨status, heff⟩ :=
      getWeatherByLocation_position_error unit permission PERMISSION_DENIED coords hp hq
    rw [heff, getWeatherByLocation_query_denied]
    rfl

theorem positionError_messages_witness :
    stateAfter (sampleState ["Oslo"] [])
        (getWeatherByLocation "metric" true (.rejected "no permissions API")
          (.error PERMISSION_DENIED) .pending)
      = stateAfter (sampleState ["Oslo"] [])
        (getWeatherByLocation "metric" true (.resolved "denied") .pending .pending) :=
  (positionError_messages (sampleState ["Oslo"] []) "metric" (.rejected "no permissions API")
    .pending .pending .pending (by decide) (by decide)).2.2.2.2.2.2.2.2.2

/-! ## Preferences -/

/-- C14, on the code: with Paris loaded under unit 'metric',
`changeUnit('imperial')` sets the unit to 'imperial' and issues the two
requests of the search for Paris with the unit 'metric' that the callback
closes over; with no city loaded it only sets the unit. -/
theorem changeUnit_requests_closed_over_unit :
    requests (changeUnit
        { sampleState [] [] with currentWeather := some (.snapshot (sampleSnapshot "Paris")) }
        "imperial" .pending .pending false)
      = [.getCurrentWeather "Paris" "metric", .getForecast "Paris" "metric"] ∧
    (stateAfter
        { sampleState [] [] with currentWeather := some (.snapshot (sampleSnapshot "Paris")) }
        (changeUnit
          { sampleState [] [] with currentWeather := some (.snapshot (sampleSnapshot "Paris")) }
          "imperial" .pending .pending false)).unit = "imperial" ∧
    changeUnit (sampleState [] []) "imperial" .pending .pending false
      = [.dispatch (.SET_UNIT "imperial")] := by
  refine ⟨by decide, by decide, by decide⟩

/-- C15, as first stated, fails for the unit: after `SET_UNIT('imperial')`
and `SET_THEME('dark')` the state rebuilt from the durable store has unit
'metric'. -/
theorem unit_not_persisted :
    (initialState (runStore ⟨none, none, none⟩ (initialState ⟨none, none, none⟩)
      [.SET_UNIT "imperial", .SET_THEME "dark"]).1).unit = "metric" ∧
    (initialState (runStore ⟨none, none, none⟩ (initialState ⟨none, none, none⟩)
      [.SET_UNIT "imperial", .SET_THEME "dark"]).1).unit ≠ "imperial" ∧
    (runStore ⟨none, none, none⟩ (initialState ⟨none, none, none⟩)
      [.SET_UNIT "imperial", .SET_THEME "dark"]).2.unit = "imperial" := by
  refine ⟨by decide, by decide, by decide⟩

/-- C15, amended. The theme persists across sessions, the unit does not: for
every unit `u` and non-empty theme `t`, after `SET_UNIT(u)` and
`SET_THEME(t)`, in either order, the durable store holds `t` under 'theme'
and the initial state rebuilt from it has theme `t` and unit 'metric'. -/
theorem theme_persisted (store : Storage) (s : State) (u t : String) (ht : t ≠ "") :
    (runStore store s [.SET_UNIT u, .SET_THEME t]).1.theme = some t ∧
    (initialState (runStore store s [.SET_UNIT u, .SET_THEME t]).1).theme = t ∧
    (initialState (runStore store s [.SET_UNIT u, .SET_THEME t]).1).unit = "metric" ∧
    (runStore store s [.SET_THEME t, .SET_UNIT u]).1.theme = some t ∧
    (initialState (runStore store s [.SET_THEME t, .SET_UNIT u]).1).theme = t ∧
    (initialState (runStore store s [.SET_THEME t, .SET_UNIT u]).1).unit = "metric" ∧
    (runStore store s [.SET_UNIT u, .SET_THEME t]).2.unit = u ∧
    (runStore store s [.SET_UNIT u, .SET_THEME t]).2.theme = t := by
  simp [runStore, storeStep, weatherReducerStorage, weatherReducer, initialState, ht]

theorem theme_persisted_witness :
    (initialState (runStore ⟨none, none, none⟩ (sampleState [] [])
      [.SET_UNIT "imperial", .SET_THEME "dark"]).1).theme = "dark" :=
  (theme_persisted ⟨none, none, none⟩ (sampleState [] []) "imperial" "dark" (by decide)).2.1

/-- C16. CHANGE_THEME is a pure preference update: `SET_THEME(t)` yields the
state with theme `t` and every other field unchanged, and writes `t` under
the key 'theme' of the durable store, leaving the other keys alone;
`changeTheme(t)` dispatches this one action and issues no gateway request. -/
theorem changeTheme_pure (store : Storage) (s : State) (t : String) :
    weatherReducer s (.SET_THEME t) = { s with theme := t } ∧
    (weatherReducer s (.SET_THEME t)).theme = t ∧
    weatherReducerStorage store s (.SET_THEME t) = { store with theme := some t } ∧
    dispatched (changeTheme t) = [.SET_THEME t] ∧
    requests (changeTheme t) = [] ∧
    stateAfter s (changeTheme t) = { s with theme := t } :=
  ⟨rfl, rfl, rfl, rfl, rfl, rfl⟩

/-- C17. Durable-store consistency: when the store holds the state's history,
favourites and theme before a reducer action, it holds them again after it.
For each key: an action that changes the field writes the new value under
the key, and an action that is not about the key changes neither the field
nor the stored value; `ADD_TO_FAVORITES` of a city already present changes
neither the state nor the store. -/
theorem store_consistent (store : Storage) (s : State) (a : Action)
    (h : StoreConsistent store s) :
    StoreConsistent (weatherReducerStorage store s a) (weatherReducer s a) ∧
    ((weatherReducer s a).searchHistory ≠ s.searchHistory →
      (weatherReducerStorage store s a).searchHistory = some (weatherReducer s a).searchHistory) ∧
    ((weatherReducer s a).favorites ≠ s.favorites →
      (weatherReducerStorage store s a).favorites = some (weatherReducer s a).favorites) ∧
    ((weatherReducer s a).theme ≠ s.theme →
      (weatherReducerStorage store s a).theme = some (weatherReducer s a).theme) ∧
    (a.storeKey ≠ some .searchHistory →
      (weatherReducer s a).searchHistory = s.searchHistory ∧
      (weatherReducerStorage store s a).searchHistory = store.searchHistory) ∧
    (a.storeKey ≠ some .favorites →
      (weatherReducer s a).favorites = s.favorites ∧
      (weatherReducerStorage store s a).favorites = store.favorites) ∧
    (a.storeKey ≠ some .theme →
      (weatherReducer s a).theme = s.theme ∧
      (weatherReducerStorage store s a).theme = store.theme) ∧
    (∀ p : FavoriteEntry, a = .ADD_TO_FAVORITES p → isFavorite s p.city = true →
      weatherReducer s a = s ∧ weatherReducerStorage store s a = store) := by
  obtain ⟨h1, h2, h3⟩ := h
  cases a <;>
    simp [StoreConsistent, weatherReducerStorage, weatherReducer, Action.storeKey, isFavorite,
      h1, h2, h3]
  all_goals split <;> simp_all

theorem store_consistent_witness :
    StoreConsistent
      (weatherReducerStorage ⟨some ["Oslo"], some [], some "light"⟩
        (initialState ⟨some ["Oslo"], some [], some "light"⟩) (.ADD_TO_HISTORY "Paris"))
      (weatherReducer (initialState ⟨some ["Oslo"], some [], some "light"⟩)
        (.ADD_TO_HISTORY "Paris")) :=
  (store_consistent ⟨some ["Oslo"], some [], some "light"⟩
    (initialState ⟨some ["Oslo"], some [], some "light"⟩) (.ADD_TO_HISTORY "Paris")
    (by decide)).1

/-! ## Forecast pagination -/

theorem jsSlice_nat {α : Type} (l : List α) (a n : Nat) :
    jsSlice l (a : Int) ((a : Int) + (n : Int)) = (l.drop a).take n := by
  unfold jsSlice
  have h1 : ¬ ((a : Int) < 0) := by omega
  have h2 : ¬ ((a : Int) + (n : Int) < 0) := by omega
  simp only [h1, h2, if_false]
  by_cases hle : a ≤ l.length
  · have hk : (min (a : Int) (l.length : Int)).toNat = a := by
      rw [min_eq_left (by exact_mod_cast hle)]; simp
    rw [hk]
    by_cases hle2 : a + n ≤ l.length
    · have hf : (min ((a : Int) + (n : Int)) (l.length : Int)
          - min (a : Int) (l.length : Int)).toNat = n := by
        rw [min_eq_left (by exact_mod_cast hle2), min_eq_left (by exact_mod_cast hle)]
        omega
      rw [hf]
    · have hf : (min ((a : Int) + (n : Int)) (l.length : Int)
          - min (a : Int) (l.length : Int)).toNat = l.length - a := by
        rw [min_eq_right (by omega), min_eq_left (by exact_mod_cast hle)]
        omega
      rw [hf]
      rw [List.take_of_length_le (by simp), List.take_of_length_le (by simp; omega)]
  · have hk : (min (a : Int) (l.length : Int)).toNat = l.length := by
      rw [min_eq_right (by omega)]; simp
    rw [hk]
    have hd : l.drop a = [] := List.drop_eq_nil_of_le (by omega)
    simp [hd]

theorem visibleForecast_nat (d : List ForecastDay) (p n : Nat) :
    visibleForecast d (p : Int) n = (d.drop (p * n)).take n := by
  unfold visibleForecast startIndex
  have := jsSlice_nat d (p * n) n
  push_cast at this
  exact this

theorem lt_totalPages_iff (d : List ForecastDay) (p n : Nat) (hn : 0 < n) :
    (p : Int) < totalPages d n ↔ p * n < d.length := by
  unfold totalPages
  rw [Int.lt_ceil]
  have hn' : (0 : ℚ) < (n : ℚ) := by exact_mod_cast hn
  rw [Int.cast_natCast, lt_div_iff₀ hn']
  exact_mod_cast Iff.rfl

theorem pages_flatten_eq_take (d : List ForecastDay) (n k : Nat) :
    ((List.range k).map (fun p => (d.drop (p * n)).take n)).flatten = d.take (k * n) := by
  induction k with
  | zero => simp
  | succ k ih =>
      rw [List.range_succ, List.map_append, List.flatten_append, ih]
      simp only [List.map_cons, List.map_nil, List.flatten_cons, List.flatten_nil,
        List.append_nil]
      rw [Nat.succ_mul, List.take_add]

theorem pageInv_apply (s : State) (e : StoreEvent) (he : e.isSetPage = false)
    (h : PageInv s) : PageInv (e.apply s) := by
  cases e with
  | action a =>
      cases a <;> simp only [StoreEvent.apply, weatherReducer] <;> try exact h
      · exact Or.inl rfl
      · split <;> exact h
      · simp [StoreEvent.isSetPage] at he
  | next =>
      simp only [StoreEvent.apply, handleNext]
      split
      · rename_i hlt
        refine Or.inr ⟨?_, ?_⟩
        · show 0 ≤ s.currentPage + 1
          rcases h with h0 | ⟨h0, _⟩ <;> omega
        · show s.currentPage + 1 ≤ totalPages s.forecast s.itemsPerPage - 1
          omega
      · exact h
  | prev =>
      simp only [StoreEvent.apply, handlePrev]
      split
      · rename_i hgt
        refine Or.inr ⟨?_, ?_⟩
        · show 0 ≤ s.currentPage - 1
          omega
        · show s.currentPage - 1 ≤ totalPages s.forecast s.itemsPerPage - 1
          rcases h with h0 | ⟨_, h1⟩ <;> omega
      · exact h

theorem pageInv_foldl (events : List StoreEvent) (s : State)
    (he : ∀ e ∈ events, e.isSetPage = false) (h : PageInv s) :
    PageInv (events.foldl StoreEvent.apply s) := by
  induction events generalizing s with
  | nil => exact h
  | cons e es ih =>
      exact ih _ (fun e' he' => he e' (List.mem_cons_of_mem _ he'))
        (pageInv_apply s e (he e (List.mem_cons_self _ _)) h)

/-- C18. Forecast page slicing: for a page size `n > 0` and a page index
`p ≥ 0`, the visible page is the part of `d` from index `p * n` up to
`min (p * n + n, |d|)`, so it has at most `n` entries; each page below
`totalPages` is non-empty and these pages, in order, concatenate to `d`;
every page from `totalPages` on is the empty list. -/
theorem visibleForecast_pages (d : List ForecastDay) (n : Nat) (hn : 0 < n) :
    (∀ p : Nat, visibleForecast d (p : Int) n = (d.drop (p * n)).take n) ∧
    (∀ p i : Nat, i < n → (visibleForecast d (p : Int) n)[i]? = d[p * n + i]?) ∧
    (∀ p : Nat, (visibleForecast d (p : Int) n).length = min (p * n + n) d.length - p * n) ∧
    (∀ p : Nat, (visibleForecast d (p : Int) n).length ≤ n) ∧
    (∀ p : Nat, (p : Int) < totalPages d n → visibleForecast d (p : Int) n ≠ []) ∧
    ((List.range (totalPages d n).toNat).map
      (fun p : Nat => visibleForecast d (p : Int) n)).flatten = d ∧
    (∀ p : Nat, totalPages d n ≤ (p : Int) → visibleForecast d (p : Int) n = []) := by
  refine ⟨fun p => visibleForecast_nat d p n, ?_, ?_, ?_, ?_, ?_, ?_⟩
  · intro p i hi
    rw [visibleForecast_nat, List.getElem?_take_of_lt hi, List.getElem?_drop]
  · intro p
    rw [visibleForecast_nat, List.length_take, List.length_drop]
    omega
  · intro p
    rw [visibleForecast_nat, List.length_take]
    exact min_le_left _ _
  · intro p hp
    have hlt : p * n < d.length := (lt_totalPages_iff d p n hn).1 hp
    rw [visibleForecast_nat]
    intro hnil
    have hlen := congrArg List.length hnil
    rw [List.length_take, List.length_drop] at hlen
    simp only [List.length_nil] at hlen
    omega
  · have hfun : (fun p : Nat => visibleForecast d (p : Int) n)
        = (fun p : Nat => (d.drop (p * n)).take n) := by
      funext p; exact visibleForecast_nat d p n
    rw [hfun, pages_flatten_eq_take]
    apply List.take_of_length_le
    by_contra hcon
    have hlt : (totalPages d n).toNat * n < d.length := by omega
    have := (lt_totalPages_iff d _ n hn).2 hlt
    have hnn : 0 ≤ totalPages d n := by
      unfold totalPages
      exact Int.ceil_nonneg (by positivity)
    rw [Int.toNat_of_nonneg hnn] at this
    exact lt_irrefl _ this
  · intro p hp
    have hge : ¬ (p * n < d.length) := fun hlt =>
      absurd ((lt_totalPages_iff d p n hn).2 hlt) (by omega)
    rw [visibleForecast_nat, List.drop_eq_nil_of_le (by omega)]
    exact List.take_nil

theorem visibleForecast_pages_witness :
    visibleForecast ((List.range 6).map sampleDay) 0 5 = (List.range 5).map sampleDay ∧
    visibleForecast ((List.range 6).map sampleDay) 1 5 = [sampleDay 5] :=
  ⟨((visibleForecast_pages ((List.range 6).map sampleDay) 5 (by decide)).1 0).trans
      (by decide),
    ((visibleForecast_pages ((List.range 6).map sampleDay) 5 (by decide)).1 1).trans
      (by decide)⟩

/-- C19. Caller-side page clamp: in every state reached from the initial
state by events among which `SET_PAGE` comes only from `handleNext` and
`handlePrev`, `currentPage` is 0 or lies between 0 and `totalPages - 1`;
`handleNext` at the last page and `handlePrev` at page 0 dispatch nothing,
and `FETCH_SUCCESS` resets `currentPage` to 0. -/
theorem page_clamp (store : Storage) (events : List StoreEvent)
    (he : ∀ e ∈ events, e.isSetPage = false) :
    PageInv (events.foldl StoreEvent.apply (initialState store)) ∧
    (∀ s : State, s.currentPage = totalPages s.forecast s.itemsPerPage - 1 →
      handleNext s.forecast s.currentPage s.itemsPerPage = []) ∧
    (∀ s : State, s.currentPage = 0 → handlePrev s.currentPage = []) ∧
    (∀ (s : State) (current : Option WeatherValue) (forecast : List ForecastDay),
      (weatherReducer s (.FETCH_SUCCESS current forecast)).currentPage = 0 ∧
      (weatherReducer s (.FETCH_SUCCESS current forecast)).forecast = forecast) := by
  refine ⟨pageInv_foldl events _ he (Or.inl rfl), ?_, ?_, ?_⟩
  · intro s hs
    simp [handleNext, hs]
  · intro s hs
    simp [handlePrev, hs]
  · intro s current forecast
    exact ⟨rfl, rfl⟩

theorem page_clamp_witness :
    PageInv ([StoreEvent.action (.FETCH_SUCCESS none ((List.range 6).map sampleDay)),
      StoreEvent.next, StoreEvent.next, StoreEvent.prev].foldl StoreEvent.apply
        (initialState ⟨none, none, none⟩)) :=
  (page_clamp ⟨none, none, none⟩ _ (by decide)).1

/-! ## Forecast aggregation -/

theorem collect_snoc (localDate : Int → String) (k : String) (done : List ForecastSample)
    (item : ForecastSample) :
    collect localDate k (done ++ [item]) =
      if localDate item.dt = k then (collect localDate k done).push item
      else collect localDate k done := by
  unfold collect samplesOf
  rw [List.filter_append]
  by_cases h : localDate item.dt = k <;> simp [h, List.foldl_append]

theorem collect_of_unseen (localDate : Int → String) (k : String) (done : List ForecastSample)
    (h : ∀ item ∈ done, localDate item.dt ≠ k) :
    collect localDate k done = DayAcc.empty k := by
  unfold collect samplesOf
  have : done.filter (fun item => localDate item.dt == k) = [] := by
    rw [List.filter_eq_nil_iff]
    intro item hitem
    simpa using h item hitem
  rw [this]
  rfl

theorem mem_addSample (localDate : Int → String) (acc : List (String × DayAcc))
    (item : ForecastSample) (e' : String × DayAcc) :
    e' ∈ addSample localDate acc item ↔
      ∃ e, (e ∈ acc ∨ (e = (localDate item.dt, DayAcc.empty (localDate item.dt)) ∧
              ∀ x ∈ acc, x.1 ≠ localDate item.dt)) ∧
        e' = if e.1 = localDate item.dt then (e.1, e.2.push item) else e := by
  unfold addSample
  simp only [List.mem_map]
  by_cases hany : acc.any (fun e => e.1 == localDate item.dt) = true
  · simp only [hany, if_true]
    have hex : ¬ ∀ x ∈ acc, x.1 ≠ localDate item.dt := by
      intro hall
      rw [List.any_eq_true] at hany
      obtain ⟨x, hx, hxd⟩ := hany
      exact hall x hx (by simpa using hxd)
    constructor
    · rintro ⟨e, he, rfl⟩
      exact ⟨e, Or.inl he, rfl⟩
    · rintro ⟨e, he | ⟨_, hall⟩, rfl⟩
      · exact ⟨e, he, rfl⟩
      · exact absurd hall hex
  · have hall : ∀ x ∈ acc, x.1 ≠ localDate item.dt := by
      intro x hx hxd
      apply hany
      rw [List.any_eq_true]
      exact ⟨x, hx, by simpa using hxd⟩
    simp only [hany, Bool.false_eq_true, if_false, List.mem_append, List.mem_singleton]
    constructor
    · rintro ⟨e, he | he, rfl⟩
      · exact ⟨e, Or.inl he, rfl⟩
      · exact ⟨e, Or.inr ⟨he, hall⟩, rfl⟩
    · rintro ⟨e, he | ⟨he, _⟩, rfl⟩
      · exact ⟨e, Or.inl he, rfl⟩
      · exact ⟨e, Or.inr he, rfl⟩

theorem keys_addSample (localDate : Int → String) (acc : List (String × DayAcc))
    (item : ForecastSample) :
    (addSample localDate acc item).map Prod.fst =
      if acc.any (fun e => e.1 == localDate item.dt) then acc.map Prod.fst
      else acc.map Prod.fst ++ [localDate item.dt] := by
  unfold addSample
  have hfst : ∀ l : List (String × DayAcc),
      (l.map (fun e => if e.1 = localDate item.dt then (e.1, e.2.push item) else e)).map Prod.fst
        = l.map Prod.fst := by
    intro l
    rw [List.map_map]
    apply List.map_congr_left
    intro e _
    simp only [Function.comp]
    split <;> rfl
  simp only [hfst]
  split <;> simp

theorem groupInv_step (localDate : Int → String) (acc : List (String × DayAcc))
    (done : List ForecastSample) (item : ForecastSample) (h : GroupInv localDate acc done) :
    GroupInv localDate (addSample localDate acc item) (done ++ [item]) := by
  obtain ⟨ha, hb, hc, hd⟩ := h
  refine ⟨?_, ?_, ?_, ?_⟩
  · intro e' he'
    obtain ⟨e, he, rfl⟩ := (mem_addSample localDate acc item e').1 he'
    rcases he with he | ⟨rfl, hall⟩
    · by_cases hk : e.1 = localDate item.dt
      · simp only [hk, if_true]
        rw [collect_snoc, if_pos rfl, ← hk, ← ha e he]
      · simp only [hk, if_false]
        rw [collect_snoc, if_neg (fun h => hk h.symm)]
        exact ha e he
    · simp only [if_true]
      rw [collect_snoc, if_pos rfl, collect_of_unseen]
      intro i hi hdate
      obtain ⟨x, hx, hxd⟩ := hb i hi
      exact hall x hx (hxd.trans hdate)
  · intro i hi
    rcases List.mem_append.1 hi with hi | hi
    · obtain ⟨e, he, hed⟩ := hb i hi
      refine ⟨_, (mem_addSample localDate acc item _).2 ⟨e, Or.inl he, rfl⟩, ?_⟩
      split <;> exact hed
    · rw [List.mem_singleton] at hi
      subst hi
      by_cases hex : ∃ x ∈ acc, x.1 = localDate i.dt
      · obtain ⟨x, hx, hxd⟩ := hex
        refine ⟨_, (mem_addSample localDate acc i _).2 ⟨x, Or.inl hx, rfl⟩, ?_⟩
        split <;> exact hxd
      · have hall : ∀ x ∈ acc, x.1 ≠ localDate i.dt := fun x hx hxd => hex ⟨x, hx, hxd⟩
        refine ⟨_, (mem_addSample localDate acc i _).2
          ⟨(localDate i.dt, DayAcc.empty (localDate i.dt)), Or.inr ⟨rfl, hall⟩, rfl⟩, ?_⟩
        simp
  · intro e' he'
    obtain ⟨e, he, rfl⟩ := (mem_addSample localDate acc item e').1 he'
    have hfst : (if e.1 = localDate item.dt then (e.1, e.2.push item) else e).1 = e.1 := by
      split <;> rfl
    rw [hfst]
    rcases he with he | ⟨rfl, _⟩
    · obtain ⟨i, hi, hid⟩ := hc e he
      exact ⟨i, List.mem_append_left _ hi, hid⟩
    · exact ⟨item, List.mem_append_right _ (List.mem_singleton_self _), rfl⟩
  · rw [keys_addSample]
    split
    · exact hd
    · rename_i hany
      refine List.Nodup.append hd (List.nodup_singleton _) ?_
      rw [List.disjoint_singleton]
      intro hmem
      obtain ⟨x, hx, hxd⟩ := List.mem_map.1 hmem
      apply hany
      rw [List.any_eq_true]
      exact ⟨x, hx, by simpa using hxd⟩

theorem groupInv_foldl (localDate : Int → String) (list : List ForecastSample)
    (acc : List (String × DayAcc)) (done : List ForecastSample)
    (h : GroupInv localDate acc done) :
    GroupInv localDate (list.foldl (addSample localDate) acc) (done ++ list) := by
  induction list generalizing acc done with
  | nil => simpa using h
  | cons item rest ih =>
      have := ih _ _ (groupInv_step localDate acc done item h)
      simpa using this

theorem groupInv_dailyForecast (localDate : Int → String) (list : List ForecastSample) :
    GroupInv localDate (dailyForecast localDate list) list := by
  have h0 : GroupInv localDate [] [] := by
    refine ⟨?_, ?_, ?_, ?_⟩ <;> simp
  simpa [dailyForecast] using groupInv_foldl localDate list [] [] h0

theorem foldl_push_fields (items : List ForecastSample) (a : DayAcc) :
    (items.foldl DayAcc.push a).date = a.date ∧
    (items.foldl DayAcc.push a).temps = a.temps ++ items.map (fun i => i.temp) ∧
    (items.foldl DayAcc.push a).icons = a.icons ++ items.map (fun i => i.icon) ∧
    (items.foldl DayAcc.push a).descriptions
      = a.descriptions ++ items.map (fun i => i.description) := by
  induction items generalizing a with
  | nil => simp
  | cons item rest ih =>
      obtain ⟨h1, h2, h3, h4⟩ := ih (a.push item)
      simp only [List.foldl_cons, List.map_cons]
      refine ⟨h1, ?_, ?_, ?_⟩
      · rw [h2]; simp [DayAcc.push]
      · rw [h3]; simp [DayAcc.push]
      · rw [h4]; simp [DayAcc.push]

theorem collect_fields (localDate : Int → String) (k : String) (list : List ForecastSample) :
    (collect localDate k list).date = k ∧
    (collect localDate k list).temps = (samplesOf localDate k list).map (fun i => i.temp) ∧
    (collect localDate k list).icons = (samplesOf localDate k list).map (fun i => i.icon) ∧
    (collect localDate k list).descriptions
      = (samplesOf localDate k list).map (fun i => i.description) := by
  obtain ⟨h1, h2, h3, h4⟩ := foldl_push_fields (samplesOf localDate k list) (DayAcc.empty k)
  unfold collect
  exact ⟨h1, by simpa [DayAcc.empty] using h2, by simpa [DayAcc.empty] using h3,
    by simpa [DayAcc.empty] using h4⟩

theorem foldl_max_spec (xs : List Rat) (x : Rat) :
    xs.foldl max x ∈ x :: xs ∧ ∀ y ∈ x :: xs, y ≤ xs.foldl max x := by
  induction xs generalizing x with
  | nil => simp
  | cons z zs ih =>
      obtain ⟨hmem, hub⟩ := ih (max x z)
      simp only [List.foldl_cons]
      refine ⟨?_, ?_⟩
      · rcases List.mem_cons.1 hmem with h | h
        · rw [h]
          rcases max_choice x z with hc | hc <;> rw [hc] <;> simp
        · exact List.mem_cons_of_mem _ (List.mem_cons_of_mem _ h)
      · intro y hy
        rcases List.mem_cons.1 hy with h | h
        · rw [h]; exact le_trans (le_max_left x z) (hub _ (List.mem_cons_self _ _))
        · rcases List.mem_cons.1 h with h | h
          · rw [h]; exact le_trans (le_max_right x z) (hub _ (List.mem_cons_self _ _))
          · exact hub _ (List.mem_cons_of_mem _ h)

theorem foldl_min_spec (xs : List Rat) (x : Rat) :
    xs.foldl min x ∈ x :: xs ∧ ∀ y ∈ x :: xs, xs.foldl min x ≤ y := by
  induction xs generalizing x with
  | nil => simp
  | cons z zs ih =>
      obtain ⟨hmem, hlb⟩ := ih (min x z)
      simp only [List.foldl_cons]
      refine ⟨?_, ?_⟩
      · rcases List.mem_cons.1 hmem with h | h
        · rw [h]
          rcases min_choice x z with hc | hc <;> rw [hc] <;> simp
        · exact List.mem_cons_of_mem _ (List.mem_cons_of_mem _ h)
      · intro y hy
        rcases List.mem_cons.1 hy with h | h
        · rw [h]; exact le_trans (hlb _ (List.mem_cons_self _ _)) (min_le_left x z)
        · rcases List.mem_cons.1 h with h | h
          · rw [h]; exact le_trans (hlb _ (List.mem_cons_self _ _)) (min_le_right x z)
          · exact hlb _ (List.mem_cons_of_mem _ h)

theorem mathMax_spec (l : List Rat) (hl : l ≠ []) :
    mathMax l ∈ l ∧ ∀ y ∈ l, y ≤ mathMax l := by
  cases l with
  | nil => exact absurd rfl hl
  | cons x xs => exact foldl_max_spec xs x

theorem mathMin_spec (l : List Rat) (hl : l ≠ []) :
    mathMin l ∈ l ∧ ∀ y ∈ l, mathMin l ≤ y := by
  cases l with
  | nil => exact absurd rfl hl
  | cons x xs => exact foldl_min_spec xs x

theorem foldl_add_eq_sum (l : List Rat) (a : Rat) :
    l.foldl (fun a b => a + b) a = a + l.sum := by
  induction l generalizing a with
  | nil => simp
  | cons x xs ih => rw [List.foldl_cons, ih, List.sum_cons, add_assoc]

theorem mean_eq (l : List Rat) : mean l = l.sum / (l.length : Rat) := by
  unfold mean
  rw [foldl_add_eq_sum, zero_add]

theorem jsRound_spec (x : Rat) :
    ((jsRound x : Int) : Rat) - 1 / 2 ≤ x ∧ x < ((jsRound x : Int) : Rat) + 1 / 2 := by
  unfold jsRound
  have h1 := Int.floor_le (x + 1 / 2)
  have h2 := Int.lt_floor_add_one (x + 1 / 2)
  constructor <;> linarith

theorem jsRound_eq_of_bounds (x : Rat) (z : Int) (h1 : (z : Rat) - 1 / 2 ≤ x)
    (h2 : x < (z : Rat) + 1 / 2) : jsRound x = z := by
  unfold jsRound
  rw [Int.floor_eq_iff]
  constructor <;> linarith

theorem formatForecastData_example :
    (formatForecastData (fun _ => "11/4/2026")
      [sampleAt 0 (52 / 5), sampleAt 10800 (63 / 5), sampleAt 21600 (99 / 10)]).map
        (fun day => (day.tempMin, day.tempMax, day.avgTemp)) = [(10, 13, 11)] := by
  have hmax : mathMax [(52 / 5 : Rat), 63 / 5, 99 / 10] = 63 / 5 := by
    have h1 : max (52 / 5 : Rat) (63 / 5) = 63 / 5 := max_eq_right (by norm_num)
    have h2 : max (63 / 5 : Rat) (99 / 10) = 63 / 5 := max_eq_left (by norm_num)
    simp only [mathMax, List.foldl_cons, List.foldl_nil, h1, h2]
  have hmin : mathMin [(52 / 5 : Rat), 63 / 5, 99 / 10] = 99 / 10 := by
    have h1 : min (52 / 5 : Rat) (63 / 5) = 52 / 5 := min_eq_left (by norm_num)
    have h2 : min (52 / 5 : Rat) (99 / 10) = 99 / 10 := min_eq_right (by norm_num)
    simp only [mathMin, List.foldl_cons, List.foldl_nil, h1, h2]
  have hmean : mean [(52 / 5 : Rat), 63 / 5, 99 / 10] = 329 / 30 := by
    simp only [mean, List.foldl_cons, List.foldl_nil, List.length_cons, List.length_nil]
    norm_num
  have h10 : jsRound (99 / 10) = 10 := jsRound_eq_of_bounds _ _ (by norm_num) (by norm_num)
  have h13 : jsRound (63 / 5) = 13 := jsRound_eq_of_bounds _ _ (by norm_num) (by norm_num)
  have h11 : jsRound (329 / 30) = 11 := jsRound_eq_of_bounds _ _ (by norm_num) (by norm_num)
  simp [formatForecastData, dailyForecast, addSample, sampleAt, DayAcc.push, DayAcc.empty,
    toForecastDay, hmax, hmin, hmean, h10, h13, h11]

/-! ## Forecast day list -/

theorem dailyForecast_snoc (localDate : Int → String) (list : List ForecastSample)
    (item : ForecastSample) :
    dailyForecast localDate (list ++ [item])
      = addSample localDate (dailyForecast localDate list) item := by
  simp [dailyForecast, List.foldl_append]

theorem keys_subset_dates (localDate : Int → String) (list : List ForecastSample)
    (k : String) (hk : k ∈ (dailyForecast localDate list).map Prod.fst) :
    k ∈ list.map (fun i => localDate i.dt) := by
  obtain ⟨_, _, hc, _⟩ := groupInv_dailyForecast localDate list
  obtain ⟨e, he, rfl⟩ := List.mem_map.1 hk
  obtain ⟨item, hitem, hid⟩ := hc e he
  exact List.mem_map.2 ⟨item, hitem, hid⟩

theorem dates_subset_keys (localDate : Int → String) (list : List ForecastSample)
    (k : String) (hk : k ∈ list.map (fun i => localDate i.dt)) :
    k ∈ (dailyForecast localDate list).map Prod.fst := by
  obtain ⟨_, hb, _, _⟩ := groupInv_dailyForecast localDate list
  obtain ⟨item, hitem, rfl⟩ := List.mem_map.1 hk
  obtain ⟨e, he, hed⟩ := hb item hitem
  exact List.mem_map.2 ⟨e, he, hed⟩

theorem any_key_iff (acc : List (String × DayAcc)) (d : String) :
    acc.any (fun e => e.1 == d) = true ↔ d ∈ acc.map Prod.fst := by
  rw [List.any_eq_true, List.mem_map]
  constructor
  · rintro ⟨x, hx, hxd⟩
    exact ⟨x, hx, by simpa using hxd⟩
  · rintro ⟨x, hx, hxd⟩
    exact ⟨x, hx, by simpa using hxd⟩

theorem keys_first_appearance (localDate : Int → String) (list : List ForecastSample) :
    ((dailyForecast localDate list).map Prod.fst).Pairwise
      (fun a b => (list.map (fun i => localDate i.dt)).indexOf a
        < (list.map (fun i => localDate i.dt)).indexOf b) := by
  induction list using List.reverseRecOn with
  | nil => simp [dailyForecast]
  | append_singleton l item ih =>
      have hold : ((dailyForecast localDate l).map Prod.fst).Pairwise
          (fun a b => ((l ++ [item]).map (fun i => localDate i.dt)).indexOf a
            < ((l ++ [item]).map (fun i => localDate i.dt)).indexOf b) := by
        refine ih.imp_of_mem ?_
        intro a b ha hb hab
        rw [List.map_append, List.indexOf_append_of_mem (keys_subset_dates localDate l a ha),
          List.indexOf_append_of_mem (keys_subset_dates localDate l b hb)]
        exact hab
      rw [dailyForecast_snoc, keys_addSample]
      split
      · exact hold
      · rename_i hany
        have hnk : localDate item.dt ∉ (dailyForecast localDate l).map Prod.fst :=
          fun h => hany ((any_key_iff _ _).2 h)
        have hnd : localDate item.dt ∉ l.map (fun i => localDate i.dt) :=
          fun h => hnk (dates_subset_keys localDate l _ h)
        rw [List.pairwise_append]
        refine ⟨hold, List.pairwise_singleton _ _, ?_⟩
        intro a ha b hb
        rw [List.mem_singleton] at hb
        subst hb
        have hamem := keys_subset_dates localDate l a ha
        rw [List.map_append, List.indexOf_append_of_mem hamem,
          List.indexOf_append_of_not_mem hnd]
        have := List.indexOf_lt_length.2 hamem
        omega

theorem keys_chronological (localDate : Int → String) (list : List ForecastSample)
    (hs : (list.map (fun i => i.dt)).Pairwise (fun a b => a ≤ b)) :
    ((dailyForecast localDate list).map Prod.fst).Pairwise
      (fun a b => ∃ sa ∈ samplesOf localDate a list,
        ∀ sb ∈ samplesOf localDate b list, sa.dt ≤ sb.dt) := by
  induction list using List.reverseRecOn with
  | nil => simp [dailyForecast]
  | append_singleton l item ih =>
      rw [List.map_append, List.pairwise_append] at hs
      obtain ⟨hl, _, hlast⟩ := hs
      have hle : ∀ x ∈ l, x.dt ≤ item.dt := fun x hx =>
        hlast _ (List.mem_map.2 ⟨x, hx, rfl⟩) _ (by simp)
      have hold : ((dailyForecast localDate l).map Prod.fst).Pairwise
          (fun a b => ∃ sa ∈ samplesOf localDate a (l ++ [item]),
            ∀ sb ∈ samplesOf localDate b (l ++ [item]), sa.dt ≤ sb.dt) := by
        refine (ih hl).imp ?_
        rintro a b ⟨sa, hsa, hall⟩
        have hsal : sa ∈ l := (List.mem_filter.1 hsa).1
        refine ⟨sa, ?_, ?_⟩
        · unfold samplesOf at hsa ⊢
          rw [List.filter_append]
          exact List.mem_append_left _ hsa
        · intro sb hsb
          unfold samplesOf at hsb
          rw [List.filter_append, List.mem_append] at hsb
          rcases hsb with hsb | hsb
          · exact hall sb hsb
          · have : sb = item := List.mem_singleton.1 (List.mem_filter.1 hsb).1
            rw [this]
            exact hle sa hsal
      rw [dailyForecast_snoc, keys_addSample]
      split
      · exact hold
      · rename_i hany
        have hnk : localDate item.dt ∉ (dailyForecast localDate l).map Prod.fst :=
          fun h => hany ((any_key_iff _ _).2 h)
        rw [List.pairwise_append]
        refine ⟨hold, List.pairwise_singleton _ _, ?_⟩
        intro a ha b hb
        rw [List.mem_singleton] at hb
        subst hb
        obtain ⟨sa, hsa, hda⟩ := List.mem_map.1 (keys_subset_dates localDate l a ha)
        refine ⟨sa, ?_, ?_⟩
        · unfold samplesOf
          rw [List.filter_append]
          exact List.mem_append_left _ (List.mem_filter.2 ⟨hsa, by simpa using hda⟩)
        · intro sb hsb
          unfold samplesOf at hsb
          have hsbm := (List.mem_filter.1 hsb).1
          rcases List.mem_append.1 hsbm with h | h
          · have hd : localDate sb.dt = localDate item.dt := by
              simpa using (List.mem_filter.1 hsb).2
            exact absurd (dates_subset_keys localDate l _ (List.mem_map.2 ⟨sb, h, hd⟩)) hnk
          · rw [List.mem_singleton.1 h]
            exact hle sa hsa

theorem day_eq_collect (localDate : Int → String) (list : List ForecastSample)
    (day : ForecastDay) (hday : day ∈ formatForecastData localDate list) :
    day = toForecastDay (collect localDate day.date list) ∧
    samplesOf localDate day.date list ≠ [] := by
  obtain ⟨ha, _, hc, _⟩ := groupInv_dailyForecast localDate list
  obtain ⟨e, he, rfl⟩ := List.mem_map.1 hday
  have hdate : (toForecastDay e.2).date = e.1 := by
    show e.2.date = e.1
    rw [ha e he, (collect_fields localDate e.1 list).1]
  rw [hdate]
  refine ⟨by rw [← ha e he], ?_⟩
  obtain ⟨item, hitem, hid⟩ := hc e he
  intro hnil
  have hmem : item ∈ samplesOf localDate e.1 list :=
    List.mem_filter.2 ⟨hitem, by simpa using hid⟩
  rw [hnil] at hmem
  exact List.not_mem_nil _ hmem

theorem dates_formatForecastData (localDate : Int → String) (list : List ForecastSample) :
    (formatForecastData localDate list).map (fun d => d.date)
      = (dailyForecast localDate list).map Prod.fst := by
  obtain ⟨ha, _, _, _⟩ := groupInv_dailyForecast localDate list
  unfold formatForecastData
  rw [List.map_map]
  apply List.map_congr_left
  intro e he
  show e.2.date = e.1
  rw [ha e he, (collect_fields localDate e.1 list).1]

/-- C21. Forecast day list: `formatForecastData` returns one entry per
distinct local calendar date among the samples: the dates of the entries are
pairwise distinct and are exactly the dates of the samples, each entry is the
aggregate of precisely the samples of its date, and the entries come in the
order in which their dates first appear among the samples; when the samples
are in non-decreasing timestamp order, an earlier entry has a sample that is
no later than every sample of a later entry; no samples give no entries. -/
theorem formatForecastData_days (localDate : Int → String) (list : List ForecastSample)
    (hs : (list.map (fun i => i.dt)).Pairwise (fun a b => a ≤ b)) :
    ((formatForecastData localDate list).map (fun d => d.date)).Nodup ∧
    (∀ d : String, d ∈ (formatForecastData localDate list).map (fun d => d.date) ↔
      d ∈ list.map (fun i => localDate i.dt)) ∧
    (∀ day ∈ formatForecastData localDate list,
      day = toForecastDay (collect localDate day.date list) ∧
      (collect localDate day.date list).temps
        = (samplesOf localDate day.date list).map (fun i => i.temp) ∧
      samplesOf localDate day.date list ≠ []) ∧
    ((formatForecastData localDate list).map (fun d => d.date)).Pairwise
      (fun a b => (list.map (fun i => localDate i.dt)).indexOf a
        < (list.map (fun i => localDate i.dt)).indexOf b) ∧
    ((formatForecastData localDate list).map (fun d => d.date)).Pairwise
      (fun a b => ∃ sa ∈ samplesOf localDate a list,
        ∀ sb ∈ samplesOf localDate b list, sa.dt ≤ sb.dt) ∧
    formatForecastData localDate [] = [] := by
  rw [dates_formatForecastData]
  refine ⟨(groupInv_dailyForecast localDate list).2.2.2, ?_, ?_,
    keys_first_appearance localDate list, keys_chronological localDate list hs, rfl⟩
  · intro d
    exact ⟨keys_subset_dates localDate list d, dates_subset_keys localDate list d⟩
  · intro day hday
    exact ⟨(day_eq_collect localDate list day hday).1,
      (collect_fields localDate day.date list).2.1,
      (day_eq_collect localDate list day hday).2⟩

theorem formatForecastData_days_witness :
    ((formatForecastData (fun dt => if dt < 86400 then "11/4/2026" else "11/5/2026")
      [sampleAt 0 10, sampleAt 43200 12, sampleAt 86400 8]).map (fun d => d.date)).Nodup :=
  (formatForecastData_days (fun dt => if dt < 86400 then "11/4/2026" else "11/5/2026")
    [sampleAt 0 10, sampleAt 43200 12, sampleAt 86400 8] (by decide)).1

theorem midpoint_map {α : Type} (S : List α) (f : α → String) (hS : S ≠ []) :
    S.length / 2 < S.length ∧
    ∃ x : α, S[S.length / 2]? = some x ∧ midpoint (S.map f) = f x := by
  have hpos : 0 < S.length := List.length_pos.2 hS
  have hlt : S.length / 2 < S.length := Nat.div_lt_self hpos (by decide)
  refine ⟨hlt, S[S.length / 2], List.getElem?_eq_getElem hlt, ?_⟩
  unfold midpoint
  rw [List.getD_eq_getElem?_getD, List.length_map, List.getElem?_map,
    List.getElem?_eq_getElem hlt]
  rfl

/-- C22. Representative sample: every forecast day is built from `k ≥ 1`
samples, the index `k / 2` (rounded down) is below `k`, and the day's icon
and description are those of one and the same sample, the one at index
`k / 2` of the day's samples in input order; this is index 0 for `k = 1` and
index 4 for `k = 8`. -/
theorem representative_sample (localDate : Int → String) (list : List ForecastSample) :
    (∀ day ∈ formatForecastData localDate list,
      1 ≤ (samplesOf localDate day.date list).length ∧
      (samplesOf localDate day.date list).length / 2
        < (samplesOf localDate day.date list).length ∧
      ∃ sample : ForecastSample,
        (samplesOf localDate day.date list)[(samplesOf localDate day.date list).length / 2]?
          = some sample ∧
        day.icon = sample.icon ∧ day.description = sample.description) ∧
    (1 : Nat) / 2 = 0 ∧ (8 : Nat) / 2 = 4 := by
  refine ⟨?_, rfl, rfl⟩
  intro day hday
  obtain ⟨hcol, hne⟩ := day_eq_collect localDate list day hday
  obtain ⟨_, _, hicons, hdescs⟩ := collect_fields localDate day.date list
  obtain ⟨hlt, x, hx, hix⟩ := midpoint_map (samplesOf localDate day.date list)
    (fun i => i.icon) hne
  obtain ⟨_, y, hy, hdy⟩ := midpoint_map (samplesOf localDate day.date list)
    (fun i => i.description) hne
  have hxy : x = y := Option.some.inj (hx.symm.trans hy)
  refine ⟨List.length_pos.2 hne, hlt, x, hx, ?_, ?_⟩
  · have h1 : day.icon = midpoint (collect localDate day.date list).icons :=
      congrArg ForecastDay.icon hcol
    rw [h1, hicons, hix]
  · have h1 : day.description = midpoint (collect localDate day.date list).descriptions :=
      congrArg ForecastDay.description hcol
    rw [h1, hdescs, hdy, hxy]

theorem sampleForecast_ne_nil :
    formatForecastData (fun _ => "11/4/2026")
      [sampleAt 0 10, sampleAt 10800 12, sampleAt 21600 8] ≠ [] := by
  simp [formatForecastData, dailyForecast, addSample]

theorem representative_sample_witness :
    1 ≤ (samplesOf (fun _ => "11/4/2026")
      ((formatForecastData (fun _ => "11/4/2026")
        [sampleAt 0 10, sampleAt 10800 12, sampleAt 21600 8]).head sampleForecast_ne_nil).date
      [sampleAt 0 10, sampleAt 10800 12, sampleAt 21600 8]).length :=
  ((representative_sample (fun _ => "11/4/2026")
    [sampleAt 0 10, sampleAt 10800 12, sampleAt 21600 8]).1 _
    (List.head_mem sampleForecast_ne_nil)).1

theorem sum_le_length_mul (l : List Rat) (m : Rat) (h : ∀ x ∈ l, x ≤ m) :
    l.sum ≤ (l.length : Rat) * m := by
  induction l with
  | nil => simp
  | cons x xs ih =>
      have h1 := h x (List.mem_cons_self _ _)
      have h2 := ih (fun y hy => h y (List.mem_cons_of_mem _ hy))
      rw [List.sum_cons, List.length_cons]
      push_cast
      linarith

theorem length_mul_le_sum (l : List Rat) (m : Rat) (h : ∀ x ∈ l, m ≤ x) :
    (l.length : Rat) * m ≤ l.sum := by
  induction l with
  | nil => simp
  | cons x xs ih =>
      have h1 := h x (List.mem_cons_self _ _)
      have h2 := ih (fun y hy => h y (List.mem_cons_of_mem _ hy))
      rw [List.sum_cons, List.length_cons]
      push_cast
      linarith

theorem mean_bounds (l : List Rat) (hl : l ≠ []) :
    mathMin l ≤ mean l ∧ mean l ≤ mathMax l := by
  have hpos : (0 : Rat) < (l.length : Rat) := by
    exact_mod_cast List.length_pos.2 hl
  rw [mean_eq]
  constructor
  · rw [le_div_iff₀ hpos, mul_comm]
    exact length_mul_le_sum l _ (mathMin_spec l hl).2
  · rw [div_le_iff₀ hpos, mul_comm]
    exact sum_le_length_mul l _ (mathMax_spec l hl).2

theorem jsRound_mono {x y : Rat} (h : x ≤ y) : jsRound x ≤ jsRound y := by
  unfold jsRound
  exact Int.floor_mono (by linarith)

theorem aggregates_singleton (t : Rat) :
    mathMin [t] = t ∧ mean [t] = t ∧ mathMax [t] = t := by
  refine ⟨rfl, ?_, rfl⟩
  simp [mean]

/-- C29. Aggregates are ordered: for every forecast day,
`tempMin ≤ avgTemp ≤ tempMax`, and the three are equal when the day has a
single sample. -/
theorem aggregates_ordered (localDate : Int → String) (list : List ForecastSample) :
    ∀ day ∈ formatForecastData localDate list,
      day.tempMin ≤ day.avgTemp ∧ day.avgTemp ≤ day.tempMax ∧
      ((samplesOf localDate day.date list).length = 1 →
        day.tempMin = day.avgTemp ∧ day.avgTemp = day.tempMax) := by
  intro day hday
  obtain ⟨hcol, hne⟩ := day_eq_collect localDate list day hday
  obtain ⟨_, htemps, _, _⟩ := collect_fields localDate day.date list
  have hmin : day.tempMin = jsRound (mathMin (collect localDate day.date list).temps) :=
    congrArg ForecastDay.tempMin hcol
  have havg : day.avgTemp = jsRound (mean (collect localDate day.date list).temps) :=
    congrArg ForecastDay.avgTemp hcol
  have hmax : day.tempMax = jsRound (mathMax (collect localDate day.date list).temps) :=
    congrArg ForecastDay.tempMax hcol
  have hne' : (collect localDate day.date list).temps ≠ [] := by
    rw [htemps]
    intro h
    exact hne (List.map_eq_nil_iff.1 h)
  obtain ⟨hlo, hhi⟩ := mean_bounds _ hne'
  rw [hmin, havg, hmax]
  refine ⟨jsRound_mono hlo, jsRound_mono hhi, ?_⟩
  intro hone
  have hlen : (collect localDate day.date list).temps.length = 1 := by
    rw [htemps, List.length_map, hone]
  obtain ⟨t, ht⟩ := List.length_eq_one.1 hlen
  rw [ht]
  obtain ⟨h1, h2, h3⟩ := aggregates_singleton t
  rw [h1, h2, h3]
  exact ⟨rfl, rfl⟩

theorem aggregates_ordered_witness :
    ((formatForecastData (fun _ => "11/4/2026")
        [sampleAt 0 10, sampleAt 10800 12, sampleAt 21600 8]).head
          sampleForecast_ne_nil).tempMin
      ≤ ((formatForecastData (fun _ => "11/4/2026")
        [sampleAt 0 10, sampleAt 10800 12, sampleAt 21600 8]).head
          sampleForecast_ne_nil).avgTemp :=
  (aggregates_ordered (fun _ => "11/4/2026")
    [sampleAt 0 10, sampleAt 10800 12, sampleAt 21600 8] _
    (List.head_mem sampleForecast_ne_nil)).1

/-! ## Loading flag -/

theorem loading_after_positionSuccess (s : State) (unit : String) (lat lon : Rat)
    (coords : Outcome (WeatherSnapshot × List ForecastDay)) (pre : List Effect)
    (hc : coords.isSettled = true) :
    (stateAfter s (pre ++ positionSuccess unit lat lon coords)).loading = false := by
  unfold positionSuccess
  cases coords with
  | resolved v =>
      obtain ⟨current, forecast⟩ := v
      by_cases hcity : current.city = "" <;>
        simp [stateAfter, runActions, dispatched, List.filterMap_append, hcity, weatherReducer]
  | rejected m =>
      simp [stateAfter, runActions, dispatched, List.filterMap_append, weatherReducer]
  | pending => simp [Outcome.isSettled] at hc

theorem loading_after_positionError (s : State) (code : Nat) (pre : List Effect) :
    (stateAfter s (pre ++ positionError code)).loading = false := by
  unfold positionError
  split
  · simp [stateAfter, runActions, dispatched, List.filterMap_append, weatherReducer]
  · split
    · simp [stateAfter, runActions, dispatched, List.filterMap_append, weatherReducer]
    · split <;>
        simp [stateAfter, runActions, dispatched, List.filterMap_append, weatherReducer]

theorem getWeatherByLocation_proceeds (unit : String) (permission : Outcome String)
    (position : PositionOutcome) (coords : Outcome (WeatherSnapshot × List ForecastDay))
    (hp : permission ≠ .pending) (hq : permission ≠ .resolved "denied") :
    ∃ status : String,
      getWeatherByLocation unit true permission position coords =
        [.dispatch .FETCH_START, .dispatch (.SET_LOCATION_PERMISSION status)] ++
          match position with
          | .position latitude longitude => positionSuccess unit latitude longitude coords
          | .error code => positionError code
          | .throws =>
              [ .dispatch (.FETCH_ERROR
                  (some "An error occurred while trying to get your location.")) ]
          | .pending => [] := by
  cases permission with
  | resolved status =>
      have hne : status ≠ "denied" := fun h => hq (by rw [h])
      exact ⟨status, by simp [getWeatherByLocation, checkGeolocationStatus, hne]⟩
  | rejected m =>
      exact ⟨"unknown", by simp [getWeatherByLocation, checkGeolocationStatus]⟩
  | pending => exact absurd rfl hp

theorem loading_after_locate (s : State) (unit : String) (hasGeolocation : Bool)
    (permission : Outcome String) (position : PositionOutcome)
    (coords : Outcome (WeatherSnapshot × List ForecastDay))
    (h : locateCompletes hasGeolocation permission position coords = true) :
    (stateAfter s (getWeatherByLocation unit hasGeolocation permission position coords)).loading
      = false := by
  cases hasGeolocation with
  | false => simp [getWeatherByLocation, stateAfter, runActions, dispatched, weatherReducer]
  | true =>
      by_cases hq : permission = .resolved "denied"
      · subst hq
        rw [getWeatherByLocation_query_denied]
        rfl
      · have hp : permission ≠ .pending := by
          intro hpend
          subst hpend
          simp [locateCompletes, Outcome.isSettled] at h
        obtain ⟨status, heff⟩ :=
          getWeatherByLocation_proceeds unit permission position coords hp hq
        rw [heff]
        have hq' : (permission == Outcome.resolved "denied") = false := by
          simpa using hq
        cases position with
        | position la lo =>
            have hc : coords.isSettled = true := by
              have h2 : permission.isSettled = true ∧ coords.isSettled = true := by
                simpa [locateCompletes, hq'] using h
              exact h2.2
            exact loading_after_positionSuccess s unit la lo coords _ hc
        | error code => exact loading_after_positionError s code _
        | throws => rfl
        | pending => simp [locateCompletes, hq'] at h

/-- C30. Loading is always cleared: whenever the flow runs to its end, the
state after all the actions that `searchWeather` (non-blank city, joint
await settled), `getWeatherByLocation` (capability absent, permission
denied, position error of any code, coordinate lookup settled, or
`getCurrentPosition` raising) or `getWeatherByExactCoords` (lookup settled)
dispatch has `loading = false`. -/
theorem loading_cleared (s : State) (unit : String) :
    (∀ (c : String) (current : Outcome WeatherValue) (forecast : Outcome (List ForecastDay))
        (forecastFirst : Bool),
      isBlank c = false → (promiseAll current forecast forecastFirst).isSettled = true →
      (stateAfter s (searchWeather unit c current forecast forecastFirst)).loading = false) ∧
    (∀ (hasGeolocation : Bool) (permission : Outcome String) (position : PositionOutcome)
        (coords : Outcome (WeatherSnapshot × List ForecastDay)),
      locateCompletes hasGeolocation permission position coords = true →
      (stateAfter s
        (getWeatherByLocation unit hasGeolocation permission position coords)).loading
          = false) ∧
    (∀ (lat lon : Rat) (coords : Outcome (WeatherSnapshot × List ForecastDay)),
      coords.isSettled = true →
      (stateAfter s (getWeatherByExactCoords unit lat lon coords)).loading = false) := by
  refine ⟨?_, ?_, ?_⟩
  · intro c current forecast forecastFirst hc hsettled
    rw [searchWeather_of_not_blank unit c current forecast forecastFirst hc]
    cases hall : promiseAll current forecast forecastFirst with
    | resolved v => rfl
    | rejected m => rfl
    | pending => rw [hall] at hsettled; simp [Outcome.isSettled] at hsettled
  · intro hasGeolocation permission position coords h
    exact loading_after_locate s unit hasGeolocation permission position coords h
  · intro lat lon coords hc
    have := loading_after_positionSuccess s unit lat lon coords [.dispatch .FETCH_START] hc
    simpa [getWeatherByExactCoords, positionSuccess] using this

theorem loading_cleared_witness :
    (stateAfter { sampleState [] [] with loading := true }
      (getWeatherByLocation "metric" true (.resolved "granted") (.error TIMEOUT)
        .pending)).loading = false :=
  (loading_cleared { sampleState [] [] with loading := true } "metric").2.1
    true (.resolved "granted") (.error TIMEOUT) .pending (by decide)

/-! ## Weather data gateway -/

/-- C25. `searchCities` never fails and short-circuits: for a query that is
absent or shorter than 2 it returns the empty list and issues no request;
for a query of length at least 2 whose geocoding request is rejected it
returns the empty list; when the request succeeds it returns one suggestion
per upstream result, in upstream order; it is never rejected, and neither is
the provider's `searchCitySuggestions`. -/
theorem searchCities_total (limit : Nat) :
    (∀ geo : Outcome (List GeoCity), searchCities none limit geo = ([], .resolved [])) ∧
    (∀ (q : String) (geo : Outcome (List GeoCity)), jsLength q < 2 →
      searchCities (some q) limit geo = ([], .resolved [])) ∧
    (∀ (q m : String), 2 ≤ jsLength q →
      searchCities (some q) limit (.rejected m) = ([.geoDirect q limit], .resolved [])) ∧
    (∀ (q : String) (data : List GeoCity), 2 ≤ jsLength q →
      searchCities (some q) limit (.resolved data)
        = ([.geoDirect q limit], .resolved (data.map toSuggestion)) ∧
      (data.map toSuggestion).length = data.length ∧
      (data.map toSuggestion).map (fun c => c.name) = data.map (fun c => c.name)) ∧
    (∀ (query : Option String) (geo : Outcome (List GeoCity)) (m : String),
      (searchCities query limit geo).2 ≠ .rejected m) ∧
    (∀ (q : String) (geo : Outcome (List GeoCity)) (m : String),
      (searchCitySuggestions q geo).2 ≠ .rejected m) := by
  have hne : ∀ q : String, 2 ≤ jsLength q → ¬ (q = "" ∨ jsLength q < 2) := by
    intro q hq h
    rcases h with h | h
    · subst h
      simp [jsLength] at hq
    · omega
  have hnever : ∀ (lim : Nat) (query : Option String) (geo : Outcome (List GeoCity))
      (m : String), (searchCities query lim geo).2 ≠ .rejected m := by
    intro lim query geo m
    unfold searchCities
    cases query with
    | none => simp
    | some q =>
        by_cases h : q = "" ∨ jsLength q < 2
        · simp [h]
        · cases geo <;> simp [h]
  refine ⟨fun _ => rfl, ?_, ?_, ?_, hnever limit, ?_⟩
  · intro q geo hq
    simp [searchCities, hq]
  · intro q m hq
    simp [searchCities, hne q hq]
  · intro q data hq
    refine ⟨by simp [searchCities, hne q hq], by simp, ?_⟩
    rw [List.map_map]
    rfl
  · intro q geo m
    unfold searchCitySuggestions
    have := hnever 5 (some q) geo m
    cases hres : (searchCities (some q) 5 geo).2 with
    | resolved v => simp
    | rejected m' => simp
    | pending => simp

theorem searchCities_total_witness :
    searchCities (some "Paris") 5 (.rejected "Network error")
      = ([.geoDirect "Paris" 5], .resolved []) :=
  (searchCities_total 5).2.2.1 "Paris" "Network error" (by decide)

/-- C24. Reverse-geocode failure is non-fatal: when the current-weather and
forecast requests by coordinates both succeed and the reverse geocoding
settles, `getWeatherByCoords` succeeds; when the reverse geocoding fails or
returns an empty list the snapshot's city and country are the name and
country of the current-weather response, and when it returns a city with a
non-empty name the snapshot's city is that name. -/
theorem getWeatherByCoords_reverse_nonfatal (localDate : Int → String) (lat lon : Rat)
    (units : String) (data : CurrentData) (list : List ForecastSample) (forecastFirst : Bool)
    (reverse : Outcome (List GeoCity)) (hr : reverse.isSettled = true) :
    ∃ snap : WeatherSnapshot,
      (getWeatherByCoords localDate lat lon units (.resolved data) (.resolved list)
        forecastFirst reverse).2 = .resolved (snap, formatForecastData localDate list) ∧
      ((reverse.isRejected = true ∨ reverse = .resolved []) →
        snap.city = data.name ∧ snap.country = data.country) ∧
      (∀ (c : GeoCity) (rest : List GeoCity), reverse = .resolved (c :: rest) →
        c.name ≠ "" → snap.city = c.name) := by
  cases reverse with
  | pending => simp [Outcome.isSettled] at hr
  | rejected m =>
      refine ⟨formatCurrentWeather data none, rfl, ?_, ?_⟩
      · intro _
        exact ⟨rfl, rfl⟩
      · intro c rest h
        cases h
  | resolved cities =>
      cases cities with
      | nil =>
          refine ⟨formatCurrentWeather data none, rfl, ?_, ?_⟩
          · intro _
            exact ⟨rfl, rfl⟩
          · intro c rest h
            cases h
      | cons city more =>
          refine ⟨_, rfl, ?_, ?_⟩
          · intro h
            rcases h with h | h
            · simp [Outcome.isRejected] at h
            · cases h
          · intro c rest h hname
            injection h with h
            injection h with h1 h2
            subst h1
            simp [formatCurrentWeather, orElse, truthy, Option.filter, hname]

theorem getWeatherByCoords_reverse_nonfatal_witness :
    ∃ snap : WeatherSnapshot,
      (getWeatherByCoords (fun _ => "11/4/2026") 48 2 "metric"
        (.resolved (sampleCurrentData "Paris")) (.resolved []) false
        (.rejected "Network error")).2 = .resolved (snap, []) ∧
      snap.city = "Paris" :=
  (getWeatherByCoords_reverse_nonfatal (fun _ => "11/4/2026") 48 2 "metric"
    (sampleCurrentData "Paris") [] false (.rejected "Network error") rfl).imp
    (fun _ h => ⟨h.1, (h.2.1 (Or.inl rfl)).1⟩)

theorem includes_not_found :
    includes "City not found. Please check the city name and try again." "City not found"
      = true := by
  decide

/-- C23, on the code: for a name whose direct lookup is answered 'City not
found' and whose geocoding returns a candidate with a successful coordinate
lookup, `getCurrentWeather` resolves with the object `{ current, forecast }`
of `getWeatherByCoords`, which has no `city` property, where the direct path
resolves with a snapshot; with no candidate the 'City not found' error is
raised again. -/
theorem getCurrentWeather_fallback_bundle :
    (getCurrentWeather (fun _ => "11/4/2026") "Pariss" "metric" sampleNotFound
        (.resolved [sampleGeoCity "Paris"]) (.resolved (sampleCurrentData "Paris"))
        (.resolved []) false (.resolved [])).2
      = .resolved (.bundle (formatCurrentWeather (sampleCurrentData "Paris") none) []) ∧
    WeatherValue.city (.bundle (formatCurrentWeather (sampleCurrentData "Paris") none) [])
      = none ∧
    (getCurrentWeather (fun _ => "11/4/2026") "Paris" "metric"
        (.resolved (sampleCurrentData "Paris")) .pending .pending .pending false .pending).2
      = .resolved (.snapshot (formatCurrentWeather (sampleCurrentData "Paris") none)) ∧
    (getCurrentWeather (fun _ => "11/4/2026") "Atlantis" "metric" sampleNotFound
        (.resolved []) .pending .pending false .pending).2
      = sampleNotFound := by
  have hlen1 : ¬ ("Pariss" = "" ∨ jsLength "Pariss" < 2) := by decide
  have hlen2 : ¬ ("Atlantis" = "" ∨ jsLength "Atlantis" < 2) := by decide
  refine ⟨?_, rfl, rfl, ?_⟩
  · simp only [getCurrentWeather, sampleNotFound, includes_not_found, if_true, searchCities,
      hlen1, if_false, List.map_cons, getWeatherByCoords, promiseAll, getCityByCoords]
    rfl
  · simp only [getCurrentWeather, sampleNotFound, includes_not_found, if_true, searchCities,
      hlen2, if_false, List.map_nil]

/-! ## Search bar -/

theorem typing_fold (lookup : String → Outcome (List CitySuggestion))
    (rest : List (Nat × String)) (first : Nat × String) (bar : SearchBar)
    (log : List (Nat × String)) (htimer : bar.timer = some (first.1 + 300, first.2))
    (hquery : bar.query = first.2) (hrapid : List.Chain Rapid first rest) :
    (rest.foldl (typeAt lookup) (bar, log)).2 = log ∧
    (rest.foldl (typeAt lookup) (bar, log)).1.timer
      = some (((first :: rest).getLast (List.cons_ne_nil _ _)).1 + 300,
          ((first :: rest).getLast (List.cons_ne_nil _ _)).2) ∧
    (rest.foldl (typeAt lookup) (bar, log)).1.query
      = ((first :: rest).getLast (List.cons_ne_nil _ _)).2 := by
  induction rest generalizing first bar with
  | nil => exact ⟨rfl, htimer, hquery⟩
  | cons c cs ih =>
      rw [List.chain_cons] at hrapid
      obtain ⟨⟨_, hlt, hne⟩, hchain⟩ := hrapid
      have hadv : advance lookup (bar, log) c.1 = (bar, log) := by
        unfold advance
        simp only [htimer]
        rw [if_neg (by omega)]
      have hstep : typeAt lookup (bar, log) c = (handleInputChange bar c.1 c.2, log) := by
        unfold typeAt
        rw [hadv]
      have hne' : ¬ c.2 = bar.query := by rw [hquery]; exact hne
      rw [List.foldl_cons, hstep, List.getLast_cons (List.cons_ne_nil _ _)]
      exact ih c (handleInputChange bar c.1 c.2)
        (by simp [handleInputChange, hne']) (by simp [handleInputChange]) hchain

theorem fetchSuggestions_log (bar : SearchBar) (query : String)
    (results : Outcome (List CitySuggestion)) :
    (fetchSuggestions bar query results).2 = if jsLength query < 2 then [] else [query] := by
  unfold fetchSuggestions
  split
  · rfl
  · cases results <;> rfl

theorem typing_first (lookup : String → Outcome (List CitySuggestion)) (bar : SearchBar)
    (first : Nat × String) (hquiet : bar.timer = none) (hfirst : first.2 ≠ bar.query) :
    typeAt lookup (bar, []) first = (handleInputChange bar first.1 first.2, []) ∧
    (handleInputChange bar first.1 first.2).timer = some (first.1 + 300, first.2) ∧
    (handleInputChange bar first.1 first.2).query = first.2 := by
  have hadv : advance lookup (bar, []) first.1 = (bar, []) := by
    unfold advance
    simp only [hquiet]
  refine ⟨?_, ?_, rfl⟩
  · unfold typeAt
    rw [hadv]
  · simp [handleInputChange, hfirst]

/-- C26. Suggestion debounce: starting with no pending timeout, for every
sequence of query changes in which each change follows the previous one by
less than 300 ms, no fetch is issued while the changes arrive, each change
replaces the pending timeout by one for its own text, due 300 ms later, and
up to any later time at most one suggestion fetch is issued: the one for
the final text, 300 ms after the last change (none if that text is shorter
than 2). -/
theorem debounce_single_fetch (lookup : String → Outcome (List CitySuggestion))
    (bar : SearchBar) (first : Nat × String) (rest : List (Nat × String)) (finish : Nat)
    (hquiet : bar.timer = none) (hfirst : first.2 ≠ bar.query)
    (hrapid : List.Chain Rapid first rest) :
    ((first :: rest).foldl (typeAt lookup) (bar, [])).2 = [] ∧
    ((first :: rest).foldl (typeAt lookup) (bar, [])).1.timer
      = some (((first :: rest).getLast (List.cons_ne_nil _ _)).1 + 300,
          ((first :: rest).getLast (List.cons_ne_nil _ _)).2) ∧
    (runTyping lookup bar (first :: rest) finish).2
      = (if ((first :: rest).getLast (List.cons_ne_nil _ _)).1 + 300 ≤ finish ∧
            2 ≤ jsLength ((first :: rest).getLast (List.cons_ne_nil _ _)).2 then
          [(((first :: rest).getLast (List.cons_ne_nil _ _)).1 + 300,
            ((first :: rest).getLast (List.cons_ne_nil _ _)).2)]
        else []) ∧
    (runTyping lookup bar (first :: rest) finish).2.length ≤ 1 := by
  obtain ⟨hstep, htimer, hquery⟩ := typing_first lookup bar first hquiet hfirst
  obtain ⟨hlog, hlast, _⟩ := typing_fold lookup rest first
    (handleInputChange bar first.1 first.2) [] htimer hquery hrapid
  have hfold : (first :: rest).foldl (typeAt lookup) (bar, [])
      = rest.foldl (typeAt lookup) (handleInputChange bar first.1 first.2, []) := by
    rw [List.foldl_cons, hstep]
  rw [← hfold] at hlog hlast
  have hrun : (runTyping lookup bar (first :: rest) finish).2
      = (if ((first :: rest).getLast (List.cons_ne_nil _ _)).1 + 300 ≤ finish ∧
            2 ≤ jsLength ((first :: rest).getLast (List.cons_ne_nil _ _)).2 then
          [(((first :: rest).getLast (List.cons_ne_nil _ _)).1 + 300,
            ((first :: rest).getLast (List.cons_ne_nil _ _)).2)]
        else []) := by
    unfold runTyping advance
    simp only [hlast, hlog, fetchSuggestions_log]
    by_cases hdue : ((first :: rest).getLast (List.cons_ne_nil _ _)).1 + 300 ≤ finish
    · by_cases hlen : jsLength ((first :: rest).getLast (List.cons_ne_nil _ _)).2 < 2
      · have hlen' : ¬ 2 ≤ jsLength ((first :: rest).getLast (List.cons_ne_nil _ _)).2 := by
          omega
        simp [hdue, hlen, hlen']
      · have hlen' : 2 ≤ jsLength ((first :: rest).getLast (List.cons_ne_nil _ _)).2 := by
          omega
        simp [hdue, hlen, hlen']
    · have hlog2 := hlog
      rw [List.foldl_cons] at hlog2
      simp [hdue, hlog2]
  refine ⟨hlog, hlast, hrun, ?_⟩
  rw [hrun]
  split <;> simp

theorem debounce_single_fetch_witness :
    (runTyping (fun _ => .resolved []) quietBar
      [(0, "par"), (100, "pari"), (200, "paris")] 1000).2 = [(500, "paris")] :=
  (debounce_single_fetch (fun _ => .resolved []) quietBar (0, "par")
    [(100, "pari"), (200, "paris")] 1000 rfl (by decide)
    (List.Chain.cons (by decide) (List.Chain.cons (by decide) List.Chain.nil))).2.2.1.trans
    (by decide)

/-- C27, as first stated, fails: after "pa" has been typed and its
suggestions have arrived, a change to "p" leaves the suggestions list as it
was; what changes at once is `showSuggestions`. -/
theorem short_input_keeps_suggestions :
    (runTyping (fun _ => .resolved sampleSuggestions) quietBar [(1000, "pa")] 2000).1.suggestions
      = sampleSuggestions ∧
    (handleInputChange
      (runTyping (fun _ => .resolved sampleSuggestions) quietBar [(1000, "pa")] 2000).1
      3000 "p").suggestions = sampleSuggestions ∧
    (handleInputChange
      (runTyping (fun _ => .resolved sampleSuggestions) quietBar [(1000, "pa")] 2000).1
      3000 "p").suggestions ≠ [] ∧
    (handleInputChange
      (runTyping (fun _ => .resolved sampleSuggestions) quietBar [(1000, "pa")] 2000).1
      3000 "p").showSuggestions = false := by
  have hpa : ¬ jsLength "pa" < 2 := by decide
  have hrun : (runTyping (fun _ => .resolved sampleSuggestions) quietBar
      [(1000, "pa")] 2000).1.suggestions = sampleSuggestions := by
    simp [runTyping, typeAt, advance, quietBar, handleInputChange, fetchSuggestions, hpa]
  refine ⟨hrun, hrun, ?_, ?_⟩
  · show (runTyping (fun _ => .resolved sampleSuggestions) quietBar
      [(1000, "pa")] 2000).1.suggestions ≠ []
    rw [hrun]
    exact List.cons_ne_nil _ _
  · show decide (2 ≤ jsLength "p") = false
    decide

/-! ## Display of the error -/

/-- C28, as first stated, fails when the location permission is 'denied':
after a denied LOCATE and a failed search for Atlantis the state has the
error 'City not found…' and neither the banner nor the location-error box
shows it. -/
theorem error_hidden_when_denied :
    (stateAfter (sampleState [] [])
      (getWeatherByLocation "metric" true (.resolved "denied") .pending .pending ++
        searchWeather "metric" "Atlantis" sampleNotFound sampleNotFound false)).error
      = some "City not found. Please check the city name and try again." ∧
    (stateAfter (sampleState [] [])
      (getWeatherByLocation "metric" true (.resolved "denied") .pending .pending ++
        searchWeather "metric" "Atlantis" sampleNotFound sampleNotFound false)).locationPermission
      = "denied" ∧
    bannerMessage (some "City not found. Please check the city name and try again.") "denied"
      = none ∧
    locationBoxMessage
      (locationErrorOf (some "City not found. Please check the city name and try again."))
      "denied" = none := by
  refine ⟨by decide, by decide, ?_, ?_⟩
  · simp [bannerMessage, truthy, Option.filter]
  · unfold locationBoxMessage
    cases truthy (locationErrorOf
      (some "City not found. Please check the city name and try again.")) <;> simp

/-! ## Forecast aggregation in double precision -/

theorem foldl_max_spec_int (xs : List Int) (x : Int) :
    xs.foldl max x ∈ x :: xs ∧ ∀ y ∈ x :: xs, y ≤ xs.foldl max x := by
  induction xs generalizing x with
  | nil => simp
  | cons z zs ih =>
      obtain ⟨hmem, hub⟩ := ih (max x z)
      simp only [List.foldl_cons]
      refine ⟨?_, ?_⟩
      · rcases List.mem_cons.1 hmem with h | h
        · rw [h]
          rcases max_choice x z with hc | hc <;> rw [hc] <;> simp
        · exact List.mem_cons_of_mem _ (List.mem_cons_of_mem _ h)
      · intro y hy
        rcases List.mem_cons.1 hy with h | h
        · rw [h]; exact le_trans (le_max_left x z) (hub _ (List.mem_cons_self _ _))
        · rcases List.mem_cons.1 h with h | h
          · rw [h]; exact le_trans (le_max_right x z) (hub _ (List.mem_cons_self _ _))
          · exact hub _ (List.mem_cons_of_mem _ h)

theorem foldl_min_spec_int (xs : List Int) (x : Int) :
    xs.foldl min x ∈ x :: xs ∧ ∀ y ∈ x :: xs, xs.foldl min x ≤ y := by
  induction xs generalizing x with
  | nil => simp
  | cons z zs ih =>
      obtain ⟨hmem, hlb⟩ := ih (min x z)
      simp only [List.foldl_cons]
      refine ⟨?_, ?_⟩
      · rcases List.mem_cons.1 hmem with h | h
        · rw [h]
          rcases min_choice x z with hc | hc <;> rw [hc] <;> simp
        · exact List.mem_cons_of_mem _ (List.mem_cons_of_mem _ h)
      · intro y hy
        rcases List.mem_cons.1 hy with h | h
        · rw [h]; exact le_trans (hlb _ (List.mem_cons_self _ _)) (min_le_left x z)
        · rcases List.mem_cons.1 h with h | h
          · rw [h]; exact le_trans (hlb _ (List.mem_cons_self _ _)) (min_le_right x z)
          · exact hlb _ (List.mem_cons_of_mem _ h)

theorem maxDouble_spec (l : List Int) (hl : l ≠ []) :
    maxDouble l ∈ l ∧ ∀ y ∈ l, y ≤ maxDouble l := by
  cases l with
  | nil => exact absurd rfl hl
  | cons x xs => exact foldl_max_spec_int xs x

theorem minDouble_spec (l : List Int) (hl : l ≠ []) :
    minDouble l ∈ l ∧ ∀ y ∈ l, minDouble l ≤ y := by
  cases l with
  | nil => exact absurd rfl hl
  | cons x xs => exact foldl_min_spec_int xs x

theorem roundDouble_eq_jsRound (a : Int) : roundDouble a = jsRound (doubleValue a) := by
  unfold roundDouble jsRound doubleValue
  have hpos : (0 : Rat) < (doubleUnit : Rat) := by
    have : 0 < doubleUnit := by decide
    exact_mod_cast this
  have hx : (a : Rat) / (doubleUnit : Rat) + 1 / 2
      = (((2 * a + Int.ofNat doubleUnit : Int) : Rat)) / ((2 * doubleUnit : Nat) : Rat) := by
    simp only [Int.ofNat_eq_coe]
    push_cast
    field_simp
    ring
  rw [hx, Rat.floor_intCast_div_natCast]
  rfl

theorem toDouble_of_num_den (x : Rat) (n d : Nat) (hn : x.num = (n : Int)) (hd : x.den = d) :
    toDouble x = roundQuot (Int.ofNat (n * doubleUnit)) d := by
  unfold toDouble
  rw [hn, hd]
  rfl

theorem day_eq_collect_double (localDate : Int → String) (list : List ForecastSample)
    (day : ForecastDay) (hday : day ∈ formatForecastDataDouble localDate list) :
    day = toForecastDayDouble (collect localDate day.date list) ∧
    samplesOf localDate day.date list ≠ [] := by
  obtain ⟨ha, _, hc, _⟩ := groupInv_dailyForecast localDate list
  obtain ⟨e, he, rfl⟩ := List.mem_map.1 hday
  have hdate : (toForecastDayDouble e.2).date = e.1 := by
    show e.2.date = e.1
    rw [ha e he, (collect_fields localDate e.1 list).1]
  rw [hdate]
  refine ⟨by rw [← ha e he], ?_⟩
  obtain ⟨item, hitem, hid⟩ := hc e he
  intro hnil
  have hmem : item ∈ samplesOf localDate e.1 list :=
    List.mem_filter.2 ⟨hitem, by simpa using hid⟩
  rw [hnil] at hmem
  exact List.not_mem_nil _ hmem

theorem sampleDay_dailyForecast (t₁ t₂ t₃ : Rat) :
    dailyForecast (fun _ => "11/4/2026")
        [sampleAt 0 t₁, sampleAt 10800 t₂, sampleAt 21600 t₃]
      = [("11/4/2026",
          { date := "11/4/2026", temps := [t₁, t₂, t₃], feelsLike := [t₁, t₂, t₃],
            icons := ["01d", "01d", "01d"],
            descriptions := ["clear sky", "clear sky", "clear sky"],
            humidity := [50, 50, 50], windSpeed := [3, 3, 3],
            pressure := [1013, 1013, 1013], clouds := [0, 0, 0] })] := by
  simp [dailyForecast, addSample, sampleAt, DayAcc.push, DayAcc.empty]

theorem formatForecastDataDouble_example :
    (formatForecastDataDouble (fun _ => "11/4/2026")
      [sampleAt 0 (52 / 5), sampleAt 10800 (63 / 5), sampleAt 21600 (99 / 10)]).map
        (fun day => (day.tempMin, day.tempMax, day.avgTemp)) = [(10, 13, 11)] := by
  have e1 : toDouble (52 / 5) = roundQuot (Int.ofNat (52 * doubleUnit)) 5 :=
    toDouble_of_num_den _ 52 5 (by norm_num) (by norm_num)
  have e2 : toDouble (63 / 5) = roundQuot (Int.ofNat (63 * doubleUnit)) 5 :=
    toDouble_of_num_den _ 63 5 (by norm_num) (by norm_num)
  have e3 : toDouble (99 / 10) = roundQuot (Int.ofNat (99 * doubleUnit)) 10 :=
    toDouble_of_num_den _ 99 10 (by norm_num) (by norm_num)
  unfold formatForecastDataDouble
  rw [sampleDay_dailyForecast]
  simp only [List.map_cons, List.map_nil, toForecastDayDouble, e1, e2, e3]
  decide

theorem formatForecastDataDouble_half :
    (formatForecastDataDouble (fun _ => "11/4/2026")
      [sampleAt 0 (101 / 10), sampleAt 10800 (51 / 5), sampleAt 21600 (56 / 5)]).map
        (fun day => day.avgTemp) = [10] := by
  have e1 : toDouble (101 / 10) = roundQuot (Int.ofNat (101 * doubleUnit)) 10 :=
    toDouble_of_num_den _ 101 10 (by norm_num) (by norm_num)
  have e2 : toDouble (51 / 5) = roundQuot (Int.ofNat (51 * doubleUnit)) 5 :=
    toDouble_of_num_den _ 51 5 (by norm_num) (by norm_num)
  have e3 : toDouble (56 / 5) = roundQuot (Int.ofNat (56 * doubleUnit)) 5 :=
    toDouble_of_num_den _ 56 5 (by norm_num) (by norm_num)
  unfold formatForecastDataDouble
  rw [sampleDay_dailyForecast]
  simp only [List.map_cons, List.map_nil, toForecastDayDouble, e1, e2, e3]
  decide

/-- The two versions of the aggregation give the same days with the same
date, icon, icon address and description: what is proved of these fields
over exact rationals holds of the program's output. -/
theorem formatForecastDataDouble_labels (localDate : Int → String)
    (list : List ForecastSample) :
    (formatForecastDataDouble localDate list).map
        (fun d => (d.date, d.icon, d.iconUrl, d.description))
      = (formatForecastData localDate list).map
        (fun d => (d.date, d.icon, d.iconUrl, d.description)) := by
  simp [formatForecastDataDouble, formatForecastData, List.map_map, Function.comp,
    toForecastDayDouble, toForecastDay]

/-- C20, as first stated, fails for the average: for a day with samples
10.1, 10.2, 11.2 the sum divided by the count is 10.5, which rounds to 11,
and the program returns `avgTemp` 10, because the sum of the three doubles
is the double just below 31.5. -/
theorem avgTemp_not_rounded_exact_mean :
    (formatForecastDataDouble (fun _ => "11/4/2026")
      [sampleAt 0 (101 / 10), sampleAt 10800 (51 / 5), sampleAt 21600 (56 / 5)]).map
        (fun day => day.avgTemp) = [10] ∧
    jsRound (((101 / 10 : Rat) + 51 / 5 + 56 / 5) / 3) = 11 ∧
    (10 : Int) ≠ 11 :=
  ⟨formatForecastDataDouble_half,
    jsRound_eq_of_bounds _ _ (by norm_num) (by norm_num), by decide⟩

/-- C20, amended. Forecast aggregation in double precision: every calendar
day that occurs among the samples has an entry, and for every entry, with
`temps` the doubles of the temperatures of the samples of that day, in
order, `temps` is not empty, `tempMax` is the rounding of the largest
element of `temps`, `tempMin` the rounding of the smallest, and `avgTemp`
the rounding of the double `S / count`, where `S` adds `temps` from left to
right, each addition and the division giving the nearest double; rounding
takes the nearest integer, halves going up; a day with samples 10.4, 12.6,
9.9 has `tempMin` 10, `tempMax` 13 and `avgTemp` 11. -/
theorem forecast_aggregation_double (localDate : Int → String)
    (list : List ForecastSample) :
    (∀ item ∈ list,
      ∃ day ∈ formatForecastDataDouble localDate list, day.date = localDate item.dt) ∧
    (∀ day ∈ formatForecastDataDouble localDate list,
      (samplesOf localDate day.date list).map (fun i => toDouble i.temp) ≠ [] ∧
      (∃ m ∈ (samplesOf localDate day.date list).map (fun i => toDouble i.temp),
        (∀ x ∈ (samplesOf localDate day.date list).map (fun i => toDouble i.temp), x ≤ m) ∧
        day.tempMax = roundDouble m) ∧
      (∃ m ∈ (samplesOf localDate day.date list).map (fun i => toDouble i.temp),
        (∀ x ∈ (samplesOf localDate day.date list).map (fun i => toDouble i.temp), m ≤ x) ∧
        day.tempMin = roundDouble m) ∧
      day.avgTemp = roundDouble
        (roundQuot
          (((samplesOf localDate day.date list).map (fun i => toDouble i.temp)).foldl
            addDouble 0)
          ((samplesOf localDate day.date list).map (fun i => toDouble i.temp)).length)) ∧
    (∀ a : Int, roundDouble a = jsRound (doubleValue a) ∧
      ((roundDouble a : Int) : Rat) - 1 / 2 ≤ doubleValue a ∧
      doubleValue a < ((roundDouble a : Int) : Rat) + 1 / 2) ∧
    (formatForecastDataDouble (fun _ => "11/4/2026")
      [sampleAt 0 (52 / 5), sampleAt 10800 (63 / 5), sampleAt 21600 (99 / 10)]).map
        (fun day => (day.tempMin, day.tempMax, day.avgTemp)) = [(10, 13, 11)] := by
  obtain ⟨_, hb, _, _⟩ := groupInv_dailyForecast localDate list
  refine ⟨?_, ?_, ?_, formatForecastDataDouble_example⟩
  · intro item hitem
    obtain ⟨e, he, hed⟩ := hb item hitem
    obtain ⟨ha, _, _, _⟩ := groupInv_dailyForecast localDate list
    refine ⟨toForecastDayDouble e.2, List.mem_map.2 ⟨e, he, rfl⟩, ?_⟩
    show e.2.date = localDate item.dt
    rw [ha e he, (collect_fields localDate e.1 list).1, hed]
  · intro day hday
    obtain ⟨hcol, hne⟩ := day_eq_collect_double localDate list day hday
    obtain ⟨_, htemps, _, _⟩ := collect_fields localDate day.date list
    have hmap : (collect localDate day.date list).temps.map toDouble
        = (samplesOf localDate day.date list).map (fun i => toDouble i.temp) := by
      rw [htemps, List.map_map]
      rfl
    have hne' : (samplesOf localDate day.date list).map (fun i => toDouble i.temp) ≠ [] :=
      fun h => hne (List.map_eq_nil_iff.1 h)
    have hmax : day.tempMax
        = roundDouble (maxDouble ((collect localDate day.date list).temps.map toDouble)) :=
      congrArg ForecastDay.tempMax hcol
    have hmin : day.tempMin
        = roundDouble (minDouble ((collect localDate day.date list).temps.map toDouble)) :=
      congrArg ForecastDay.tempMin hcol
    have havg : day.avgTemp
        = roundDouble (meanDouble ((collect localDate day.date list).temps.map toDouble)) :=
      congrArg ForecastDay.avgTemp hcol
    rw [hmap] at hmax hmin havg
    exact ⟨hne', ⟨_, (maxDouble_spec _ hne').1, (maxDouble_spec _ hne').2, hmax⟩,
      ⟨_, (minDouble_spec _ hne').1, (minDouble_spec _ hne').2, hmin⟩, havg⟩
  · intro a
    rw [roundDouble_eq_jsRound]
    exact ⟨rfl, jsRound_spec _⟩

theorem forecast_aggregation_double_witness :
    ∃ day ∈ formatForecastDataDouble (fun _ => "11/4/2026")
        [sampleAt 0 (101 / 10), sampleAt 10800 (51 / 5), sampleAt 21600 (56 / 5)],
      day.date = "11/4/2026" :=
  (forecast_aggregation_double (fun _ => "11/4/2026")
    [sampleAt 0 (101 / 10), sampleAt 10800 (51 / 5), sampleAt 21600 (56 / 5)]).1
    (sampleAt 0 (101 / 10)) (List.mem_cons_self _ _)

/-! ## Query changes to a short text -/

/-- C27, amended. For every change of the query to a text shorter than 2,
by whichever handler, the dropdown is not rendered from the moment of the
change, the timeout set for that text is due 300 ms later, and when it fires
the suggestions list is set to empty and no suggestion fetch is issued.
Typing, submitting and picking a history entry set `showSuggestions` to
false at once and leave the suggestions list as it was; the clear button
empties the list at once and leaves `showSuggestions` as it was; picking a
suggestion does both. -/
theorem short_query_hides_dropdown (bar : SearchBar) (now : Nat) (change : QueryChange)
    (results : Outcome (List CitySuggestion))
    (hchanged : (change.apply bar now).query ≠ bar.query)
    (hshort : jsLength (change.apply bar now).query < 2) :
    dropdownVisible (change.apply bar now) = false ∧
    (change.apply bar now).timer = some (now + 300, (change.apply bar now).query) ∧
    (∀ b : SearchBar, fetchSuggestions b (change.apply bar now).query results
      = ({ b with suggestions := [] }, [])) ∧
    (∀ value : String, change = .input value →
      (change.apply bar now).showSuggestions = false ∧
      (change.apply bar now).suggestions = bar.suggestions) ∧
    (change = .clear →
      (change.apply bar now).suggestions = [] ∧
      (change.apply bar now).showSuggestions = bar.showSuggestions) ∧
    (change = .submit ∨ change = .history →
      (change.apply bar now).showSuggestions = false ∧
      (change.apply bar now).suggestions = bar.suggestions) ∧
    (∀ city : CitySuggestion, change = .suggestion city →
      (change.apply bar now).showSuggestions = false ∧
      (change.apply bar now).suggestions = []) := by
  have hfetch : ∀ b : SearchBar, fetchSuggestions b (change.apply bar now).query results
      = ({ b with suggestions := [] }, []) := by
    intro b
    simp [fetchSuggestions, hshort]
  cases change with
  | input value =>
      have hne : ¬ value = bar.query := fun h => hchanged (by simp [QueryChange.apply, handleInputChange, h])
      have hnot : ¬ 2 ≤ jsLength value := by
        have : jsLength value < 2 := by simpa [QueryChange.apply, handleInputChange] using hshort
        omega
      refine ⟨?_, ?_, hfetch, ?_, ?_, ?_, ?_⟩
      · simp [QueryChange.apply, dropdownVisible, handleInputChange, hnot]
      · simp [QueryChange.apply, handleInputChange, hne]
      · intro v _
        exact ⟨by simp [QueryChange.apply, handleInputChange, hnot], rfl⟩
      · intro h; cases h
      · intro h; rcases h with h | h <;> cases h
      · intro city h; cases h
  | clear =>
      have hne : ¬ "" = bar.query := fun h => hchanged (by simp [QueryChange.apply, handleClearSearch, rearm, h])
      refine ⟨?_, ?_, hfetch, ?_, ?_, ?_, ?_⟩
      · simp [QueryChange.apply, dropdownVisible, handleClearSearch, rearm]
      · simp [QueryChange.apply, handleClearSearch, rearm, hne]
      · intro v h; cases h
      · intro _; exact ⟨rfl, rfl⟩
      · intro h; rcases h with h | h <;> cases h
      · intro city h; cases h
  | submit =>
      have hb : isBlank bar.query = false := by
        by_contra hcon
        have hblank : isBlank bar.query = true := by simpa using hcon
        exact hchanged (by simp [QueryChange.apply, handleSubmit, hblank])
      have hne : ¬ "" = bar.query := fun h =>
        hchanged (by simp [QueryChange.apply, handleSubmit, hb, rearm, h])
      refine ⟨?_, ?_, hfetch, ?_, ?_, ?_, ?_⟩
      · simp [QueryChange.apply, dropdownVisible, handleSubmit, hb, rearm]
      · simp [QueryChange.apply, handleSubmit, hb, rearm, hne]
      · intro v h; cases h
      · intro h; cases h
      · intro _
        exact ⟨by simp [QueryChange.apply, handleSubmit, hb, rearm],
          by simp [QueryChange.apply, handleSubmit, hb, rearm]⟩
      · intro city h; cases h
  | history =>
      have hne : ¬ "" = bar.query := fun h =>
        hchanged (by simp [QueryChange.apply, handleHistoryClick, rearm, h])
      refine ⟨?_, ?_, hfetch, ?_, ?_, ?_, ?_⟩
      · simp [QueryChange.apply, dropdownVisible, handleHistoryClick, rearm]
      · simp [QueryChange.apply, handleHistoryClick, rearm, hne]
      · intro v h; cases h
      · intro h; cases h
      · intro _; exact ⟨rfl, rfl⟩
      · intro city h; cases h
  | suggestion city =>
      have hne : ¬ city.displayName = bar.query := fun h =>
        hchanged (by simp [QueryChange.apply, handleSuggestionClick, rearm, h])
      refine ⟨?_, ?_, hfetch, ?_, ?_, ?_, ?_⟩
      · simp [QueryChange.apply, dropdownVisible, handleSuggestionClick, rearm]
      · simp [QueryChange.apply, handleSuggestionClick, rearm, hne]
      · intro v h; cases h
      · intro h; cases h
      · intro h; rcases h with h | h <;> cases h
      · intro c _; exact ⟨rfl, rfl⟩

theorem short_query_hides_dropdown_witness :
    dropdownVisible (QueryChange.clear.apply
      { quietBar with query := "pa", suggestions := sampleSuggestions, showSuggestions := true }
      3000) = false :=
  (short_query_hides_dropdown
    { quietBar with query := "pa", suggestions := sampleSuggestions, showSuggestions := true }
    3000 .clear .pending (by decide) (by decide)).1

/-! ## Display of the error, with `locationError` as component state -/

theorem truthy_some_of_ne (e : String) (he : e ≠ "") : truthy (some e) = some e := by
  simp [truthy, Option.filter, he]

theorem errorEffect_of_change (previous : Option String) (e : String)
    (locationError : Option String) (he : e ≠ "") (hm : mentionsLocation e = true)
    (hchange : previous ≠ some e) :
    errorEffect previous (some e) locationError = some e := by
  have hne : ¬ some e = previous := fun h => hchange h.symm
  simp [errorEffect, hne, locationErrorOf, truthy_some_of_ne e he, hm]

/-- A second click on the location button where geolocation is unsupported:
the click sets `locationError` to `null`, the same error is dispatched again
with no FETCH_START in between, so `error` does not change, the effect on
`[error]` does not run, and the message, still in the state, is rendered
neither by the banner nor by the location-error box. -/
theorem locationError_not_restored :
    (stateAfter (sampleState [] [])
      (getWeatherByLocation "metric" false .pending .pending .pending)).error
      = some "Geolocation is not supported by your browser. Please search for a city manually." ∧
    locationBoxMessage
      (errorEffect none
        (stateAfter (sampleState [] [])
          (getWeatherByLocation "metric" false .pending .pending .pending)).error none)
      "unsupported"
      = some "Geolocation is not supported by your browser. Please search for a city manually." ∧
    (stateAfter
      (stateAfter (sampleState [] [])
        (getWeatherByLocation "metric" false .pending .pending .pending))
      (getWeatherByLocation "metric" false .pending .pending .pending)).error
      = some "Geolocation is not supported by your browser. Please search for a city manually." ∧
    locationBoxMessage
      (errorEffect
        (some "Geolocation is not supported by your browser. Please search for a city manually.")
        (some "Geolocation is not supported by your browser. Please search for a city manually.")
        (locationErrorAfterClick "unsupported"
          (some "Geolocation is not supported by your browser. Please search for a city manually.")))
      "unsupported" = none ∧
    bannerMessage
      (some "Geolocation is not supported by your browser. Please search for a city manually.")
      "unsupported" = none := by
  have he : "Geolocation is not supported by your browser. Please search for a city manually."
      ≠ "" := by decide
  have hm : mentionsLocation
      "Geolocation is not supported by your browser. Please search for a city manually."
      = true := by decide
  have h1 : (stateAfter (sampleState [] [])
      (getWeatherByLocation "metric" false .pending .pending .pending)).error
      = some "Geolocation is not supported by your browser. Please search for a city manually." := by
    decide
  refine ⟨h1, ?_, by decide, ?_, ?_⟩
  · rw [h1, errorEffect_of_change none _ none he hm (by simp)]
    simp [locationBoxMessage, truthy_some_of_ne _ he]
  · simp [errorEffect, locationErrorAfterClick, locationBoxMessage, truthy, Option.filter]
  · simp [bannerMessage, truthy_some_of_ne _ he, hm]

/-- C28, amended. For every non-empty error message: with a permission
other than 'denied', a message that does not contain 'location' is rendered
by the banner; with a permission other than 'denied', a message that
contains 'location' is rendered by the location-error box, and not by the
banner, in the render where `error` has changed to it (the effect on
`[error]` then runs, whatever `locationError` held); with the permission
'denied' the banner does not render it and the location-error box renders
nothing, whatever `locationError` holds. -/
theorem error_shown_unless_denied (e permission : String)
    (previous locationError : Option String) (he : e ≠ "") :
    (permission ≠ "denied" → mentionsLocation e = false →
      bannerMessage (some e) permission = some e) ∧
    (permission ≠ "denied" → mentionsLocation e = true → previous ≠ some e →
      locationBoxMessage (errorEffect previous (some e) locationError) permission = some e ∧
      bannerMessage (some e) permission = none) ∧
    (permission = "denied" →
      bannerMessage (some e) permission = none ∧
      ∀ held : Option String, locationBoxMessage held permission = none) := by
  refine ⟨?_, ?_, ?_⟩
  · intro hp hm
    simp [bannerMessage, truthy_some_of_ne e he, hm, hp]
  · intro hp hm hchange
    rw [errorEffect_of_change previous e locationError he hm hchange]
    exact ⟨by simp [locationBoxMessage, truthy_some_of_ne e he, hp],
      by simp [bannerMessage, truthy_some_of_ne e he, hm]⟩
  · intro hp
    subst hp
    refine ⟨by simp [bannerMessage, truthy_some_of_ne e he], ?_⟩
    intro held
    unfold locationBoxMessage
    cases truthy held <;> simp

theorem error_shown_unless_denied_witness :
    locationBoxMessage
      (errorEffect none
        (some "Geolocation is not supported by your browser. Please search for a city manually.")
        none)
      "unsupported"
      = some "Geolocation is not supported by your browser. Please search for a city manually." :=
  ((error_shown_unless_denied
    "Geolocation is not supported by your browser. Please search for a city manually."
    "unsupported" none none (by decide)).2.1 (by decide) (by decide) (by simp)).1

end WeatherApp
